import Mathlib

/-!
Verification development for the incident state-diff and notification-dispatch
engine of a status-page monitoring worker (source: `src/index.ts`).

The engine is embedded shallowly:
* pure helpers (`statusPriority`, `impactLevel`, `shouldFilterByImpact`,
  the digest message fragments) become Lean functions;
* the per-incident classification branch of `processIncidents` becomes
  `processOne`, and the surrounding loop becomes a `List.foldl`
  (`processLoop`) threading the accumulated arrays and KV writes;
* the KV store is a function `String → Option StoredIncident`
  (incident keys only); the rate-limit marker and metrics singleton are
  separate fields of `WorkerState`;
* timestamps are integers (milliseconds since epoch, as produced by
  `Date.now()` / `new Date(s).getTime()`); the ISO string written into
  stored records is an opaque `nowIso : String` parameter;
* network dispatch outcomes are an oracle `sendOk : Notification → Bool`;
  the engine itself only queues notifications and counts successes;
* `JSON.parse` (needed for the legacy stored-value fallback of
  `getStoredIncident`) is modelled by an executable JSON parser
  (`jsonParse`) where `Option.none` models a thrown `SyntaxError`.
-/

namespace CfIncidents

/-- Source constant `RATE_LIMIT_COOLDOWN_MS = 60000` (1 minute). -/
def RATE_LIMIT_COOLDOWN_MS : Int := 60000

/-- Source constant `MAX_RETRIES = 3`. -/
def MAX_RETRIES : Nat := 3

/-- Source constant `DIGEST_THRESHOLD = 3`. -/
def DIGEST_THRESHOLD : Nat := 3

/-- Source constant `RECENT_INCIDENT_MS = 7 * 24 * 60 * 60 * 1000` (7 days). -/
def RECENT_INCIDENT_MS : Int := 7 * 24 * 60 * 60 * 1000

/-- Lookup in `STATUS_PRIORITIES` combined with the `|| 0` default used at the
call sites (an unknown status has priority 0). -/
def statusPriority (s : String) : Nat :=
  if s = "investigating" then 1
  else if s = "identified" then 2
  else if s = "monitoring" then 3
  else if s = "resolved" then 4
  else 0

/-- Lookup in `IMPACT_LEVELS` combined with the `|| 0` default used at the
call sites (an unknown impact has level 0; "none" maps to 0 as well). -/
def impactLevel (s : String) : Nat :=
  if s = "none" then 0
  else if s = "minor" then 1
  else if s = "major" then 2
  else if s = "critical" then 3
  else 0

/-- Lookup in `IMPACT_EMOJIS`; an unknown impact yields the empty string
(the digest line in the source indexes the table without a fallback, which
would render `undefined` in JS; the `impact` field is typed to the four
known values so this case is unreachable there). -/
def impactEmoji (s : String) : String :=
  if s = "critical" then "🔴"
  else if s = "major" then "🟠"
  else if s = "minor" then "🟡"
  else if s = "none" then "⚪"
  else ""

/-- An incident as fetched from the status API; only the fields the
reconciliation engine inspects are carried (`started_at` as milliseconds). -/
structure Incident where
  id : String
  name : String
  status : String
  impact : String
  startedAt : Int
deriving DecidableEq, Repr

/-- The `StoredIncident` record persisted under `incident:<id>`. -/
structure StoredIncident where
  status : String
  timestamp : String
deriving DecidableEq, Repr

/-- The `action` field of `ProcessResult` (string-union in the source). -/
inductive Action where
  | none
  | new_incident_notification
  | resolution_notification
  | status_updated
  | monitoring_notification
  | digest_notification
  | filtered
deriving DecidableEq, Repr

/-- The `ProcessResult` record returned to a manual caller. -/
structure ProcessResult where
  id : String
  name : String
  impact : String
  status : String
  storedStatus : Option String
  action : Action
deriving DecidableEq, Repr

/-- The `Metrics` singleton persisted under `metrics:data`. -/
structure Metrics where
  lastRun : String
  notificationsSent : Nat
  incidentsProcessed : Nat
  errors : Nat
deriving DecidableEq, Repr

/-- A queued notification, identified by kind and payload incident(s);
mirrors which send function `processIncidents` pushes for each action. -/
inductive Notification where
  | newIncident (inc : Incident)
  | digest (incs : List Incident)
  | resolution (inc : Incident)
  | monitoring (inc : Incident)
  | statusUpdate (inc : Incident) (oldStatus : String)
deriving DecidableEq, Repr

/-- Persistent worker state: the incident KV entries, the
`metrics:last_notification` marker (milliseconds), and `metrics:data`. -/
structure WorkerState where
  incidentStore : String → Option StoredIncident
  lastNotificationAt : Option Int
  metrics : Option Metrics

/-- Configuration from the environment (`MIN_IMPACT_LEVEL` is optional). -/
structure EnvConfig where
  minImpactLevel : Option String

/-- `shouldFilterByImpact`: JS `if (!minImpactLevel) return false` treats both
an absent and an empty-string configuration as falsy. -/
def shouldFilterByImpact (incident : Incident) (minImpactLevel : Option String) : Bool :=
  match minImpactLevel with
  | Option.none => false
  | Option.some m =>
    if m = "" then false
    else decide (impactLevel incident.impact < impactLevel m)

/-- `isRateLimited`: true when the marker exists and is newer than the
cooldown window. -/
def isRateLimited (now : Int) (st : WorkerState) : Bool :=
  match st.lastNotificationAt with
  | Option.none => false
  | Option.some t => decide (now - t < RATE_LIMIT_COOLDOWN_MS)

/-- Outcome of the per-incident classification branch of `processIncidents`:
the `ProcessResult` pushed to `results`, which of the four pending-arrays the
incident joins, and whether `storeIncident` is called. -/
structure StepOut where
  result : ProcessResult
  isNew : Bool
  isResolved : Bool
  isMonitoring : Bool
  statusUpdateOld : Option String
  storeWrite : Bool
deriving DecidableEq, Repr

/-- The `storedStatus` field of a `ProcessResult`, mirroring
`storedIncident?.status || null` (an empty-string status is falsy in JS). -/
def storedStatusView (storedIncident : Option StoredIncident) : Option String :=
  match storedIncident with
  | Option.none => Option.none
  | Option.some si => if si.status = "" then Option.none else Option.some si.status

/-- The body of the `for (const incident of recentIncidents)` loop of
`processIncidents` for one incident, reading the batch-fetched snapshot
value `storedIncident`. -/
def processOne (storedIncident : Option StoredIncident) (incident : Incident)
    (minImpactLevel : Option String) : StepOut :=
  let base : ProcessResult :=
    ⟨incident.id, incident.name, incident.impact, incident.status,
      storedStatusView storedIncident, Action.none⟩
  if shouldFilterByImpact incident minImpactLevel then
    ⟨{ base with action := Action.filtered }, false, false, false, Option.none, false⟩
  else
    match storedIncident with
    | Option.none =>
      if incident.status ≠ "resolved" then
        ⟨{ base with action := Action.new_incident_notification },
          true, false, false, Option.none, true⟩
      else
        ⟨base, false, false, false, Option.none, true⟩
    | Option.some si =>
      if si.status ≠ "resolved" ∧ incident.status = "resolved" then
        ⟨{ base with action := Action.resolution_notification },
          false, true, false, Option.none, true⟩
      else if si.status ≠ "monitoring" ∧ incident.status = "monitoring" then
        ⟨{ base with action := Action.monitoring_notification },
          false, false, true, Option.none, true⟩
      else if si.status ≠ incident.status then
        if statusPriority incident.status > statusPriority si.status then
          ⟨{ base with action := Action.status_updated },
            false, false, false, Option.some si.status, true⟩
        else
          ⟨base, false, false, false, Option.none, true⟩
      else
        ⟨base, false, false, false, Option.none, false⟩

/-- Accumulator of the processing loop: the pushed arrays plus the KV store
as mutated so far (classification keeps reading the pre-run snapshot). -/
structure LoopAcc where
  results : List ProcessResult
  newIncidents : List Incident
  resolvedIncidents : List Incident
  monitoringIncidents : List Incident
  statusUpdates : List (Incident × String)
  store : String → Option StoredIncident

/-- One iteration of the processing loop: classify against the snapshot
`store0`, append to the arrays, and apply the `storeIncident` write (which
stores the current status and the run's ISO timestamp). -/
def processStep (store0 : String → Option StoredIncident) (minImpactLevel : Option String)
    (nowIso : String) (acc : LoopAcc) (incident : Incident) : LoopAcc :=
  let s := processOne (store0 incident.id) incident minImpactLevel
  { results := acc.results ++ [s.result]
    newIncidents := acc.newIncidents ++ (if s.isNew then [incident] else [])
    resolvedIncidents := acc.resolvedIncidents ++ (if s.isResolved then [incident] else [])
    monitoringIncidents := acc.monitoringIncidents ++ (if s.isMonitoring then [incident] else [])
    statusUpdates := acc.statusUpdates ++
      (match s.statusUpdateOld with
       | Option.some old => [(incident, old)]
       | Option.none => [])
    store := if s.storeWrite then
        (fun k => if k = incident.id then Option.some ⟨incident.status, nowIso⟩ else acc.store k)
      else acc.store }

/-- The empty accumulator over the pre-run snapshot. -/
def loopInit (store0 : String → Option StoredIncident) : LoopAcc :=
  ⟨[], [], [], [], [], store0⟩

/-- The whole `for (const incident of recentIncidents)` loop. -/
def processLoop (store0 : String → Option StoredIncident) (minImpactLevel : Option String)
    (nowIso : String) (incidents : List Incident) : LoopAcc :=
  incidents.foldl (processStep store0 minImpactLevel nowIso) (loopInit store0)

/-- The recency filter applied to the fetched list:
`Date.now() - new Date(inc.started_at).getTime() < RECENT_INCIDENT_MS`. -/
def recentFilter (fetched : List Incident) (now : Int) : List Incident :=
  fetched.filter (fun inc => decide (now - inc.startedAt < RECENT_INCIDENT_MS))

/-- The new-incident portion of the queue: one digest when the new-incident
count reaches `DIGEST_THRESHOLD`, else one individual card per incident,
nothing when there are none (`if (newIncidents.length > 0)`). -/
def newPartOf (newIncidents : List Incident) : List Notification :=
  if 0 < newIncidents.length then
    if DIGEST_THRESHOLD ≤ newIncidents.length then [Notification.digest newIncidents]
    else newIncidents.map Notification.newIncident
  else []

/-- Assembly of the notification queue: the new-incident portion, then
resolution, monitoring, and status-update notifications, in source push
order. -/
def buildNotifications (newIncidents resolvedIncidents monitoringIncidents : List Incident)
    (statusUpdates : List (Incident × String)) : List Notification :=
  newPartOf newIncidents
  ++ resolvedIncidents.map Notification.resolution
  ++ monitoringIncidents.map Notification.monitoring
  ++ statusUpdates.map (fun p => Notification.statusUpdate p.1 p.2)

/-- Observable outcome of one `processIncidents(env, returnResults)` run. -/
structure RunOutput where
  results : List ProcessResult
  notifications : List Notification
  finalState : WorkerState
  returned : Option (List ProcessResult)

/-- `processIncidents`: rate-limit gate, recency filter, classification loop,
notification dispatch (outcomes given by the oracle `sendOk`), and the final
metrics update.  `updateMetrics` bumps the `metrics:last_notification` marker
only when `notificationsSent` is truthy, i.e. nonzero. -/
def runProcess (env : EnvConfig) (st : WorkerState) (fetched : List Incident)
    (now : Int) (nowIso : String) (sendOk : Notification → Bool)
    (returnResults : Bool) : RunOutput :=
  if isRateLimited now st then
    ⟨[], [], st, if returnResults then Option.some [] else Option.none⟩
  else
    let recentIncidents := recentFilter fetched now
    let acc := processLoop st.incidentStore env.minImpactLevel nowIso recentIncidents
    let notifications := buildNotifications acc.newIncidents acc.resolvedIncidents
      acc.monitoringIncidents acc.statusUpdates
    let successful := (notifications.filter sendOk).length
    let failed := notifications.length - successful
    let st' : WorkerState :=
      ⟨acc.store,
       if successful ≠ 0 then Option.some now else st.lastNotificationAt,
       Option.some ⟨nowIso, successful, recentIncidents.length, failed⟩⟩
    ⟨acc.results, notifications, st',
     if returnResults then Option.some acc.results else Option.none⟩

/-- Whether a queued notification concerns the incident with identifier
`iid`, a digest counting as one notification for each incident it groups. -/
def notifiesIncident (iid : String) : Notification → Bool
  | Notification.newIncident i => decide (i.id = iid)
  | Notification.digest l => l.any (fun i => decide (i.id = iid))
  | Notification.resolution i => decide (i.id = iid)
  | Notification.monitoring i => decide (i.id = iid)
  | Notification.statusUpdate i _ => decide (i.id = iid)

/-- One bullet line of the digest body, from `sendDigestNotification`
(note the source indexes `IMPACT_EMOJIS` without a fallback here). -/
def digestLine (inc : Incident) : String :=
  "• " ++ impactEmoji inc.impact ++ " <b>" ++ inc.name ++ "</b> (" ++ inc.impact ++ ")"

/-- The `incidentList` string of the digest body: the first 10 incidents,
one bullet line each, joined by `<br>`. -/
def digestIncidentList (incidents : List Incident) : String :=
  String.intercalate "<br>" ((incidents.take 10).map digestLine)

/-- The `moreText` suffix of the digest body. -/
def digestMoreText (incidents : List Incident) : String :=
  if incidents.length > 10 then
    "<br>...and " ++ toString (incidents.length - 10) ++ " more"
  else ""

/-- The digest body paragraph: `Incidents:` header, list, suffix. -/
def digestBodyText (incidents : List Incident) : String :=
  "<b>Incidents:</b><br>" ++ digestIncidentList incidents ++ digestMoreText incidents

/-- The retry loop of `withRetry` from iteration index `i` with `remaining`
iterations left to run.  The attempt oracle gives each call's outcome
(`Except.error` models a thrown exception).  Besides the final outcome, the
list of back-off sleeps actually performed (in ms) is returned.  The `0`
case models falling out of the loop, reaching
`throw new Error('Max retries exceeded')`. -/
def withRetryGo {T : Type} (attempts : Nat → Except String T) (maxRetries : Nat) :
    Nat → Nat → Except String T × List Nat
  | _i, 0 => (Except.error "Max retries exceeded", [])
  | i, remaining + 1 =>
    match attempts i with
    | Except.ok v => (Except.ok v, [])
    | Except.error e =>
      if i = maxRetries - 1 then (Except.error e, [])
      else
        let d := 2 ^ i * 1000
        let rest := withRetryGo attempts maxRetries (i + 1) remaining
        (rest.1, d :: rest.2)

/-- `withRetry(fn, maxRetries)`: run the loop `for (let i = 0; i < maxRetries; i++)`
from index 0. -/
def withRetry {T : Type} (attempts : Nat → Except String T) (maxRetries : Nat) :
    Except String T × List Nat :=
  withRetryGo attempts maxRetries 0 maxRetries

/-- JSON syntax tree, as produced by `JSON.parse` (numbers kept as their
numeral text; the numeric value is never consumed by this program). -/
inductive Json where
  | jnull
  | jbool (b : Bool)
  | jnum (numeral : String)
  | jstr (s : String)
  | jarr (elems : List Json)
  | jobj (fields : List (String × Json))
deriving Repr

/-- JSON insignificant whitespace. -/
def isJsonWs (c : Char) : Bool :=
  c = ' ' ∨ c = '\t' ∨ c = '\n' ∨ c = '\r'

/-- Drop leading JSON whitespace. -/
def skipWs : List Char → List Char
  | [] => []
  | c :: cs => if isJsonWs c then skipWs cs else c :: cs

/-- Split the longest leading run of decimal digits. -/
def takeDigits : List Char → List Char × List Char
  | [] => ([], [])
  | c :: cs =>
    if c.isDigit then
      let p := takeDigits cs
      (c :: p.1, p.2)
    else ([], c :: cs)

/-- Value of a hexadecimal digit, if any. -/
def hexVal (c : Char) : Option Nat :=
  if '0' ≤ c ∧ c ≤ '9' then Option.some (c.toNat - '0'.toNat)
  else if 'a' ≤ c ∧ c ≤ 'f' then Option.some (c.toNat - 'a'.toNat + 10)
  else if 'A' ≤ c ∧ c ≤ 'F' then Option.some (c.toNat - 'A'.toNat + 10)
  else Option.none

/-- Parse the contents of a JSON string literal after its opening quote:
returns the decoded characters and the input after the closing quote.
Unterminated strings, bad escapes, and raw control characters fail. -/
def parseStringChars : Nat → List Char → Option (List Char × List Char)
  | 0, _ => Option.none
  | _ + 1, [] => Option.none
  | fuel + 1, c :: cs =>
    if c = '"' then Option.some ([], cs)
    else if c = '\\' then
      match cs with
      | [] => Option.none
      | e :: cs' =>
        if e = 'u' then
          match cs' with
          | h1 :: h2 :: h3 :: h4 :: cs'' =>
            match hexVal h1, hexVal h2, hexVal h3, hexVal h4 with
            | Option.some a, Option.some b, Option.some c3, Option.some d =>
              match parseStringChars fuel cs'' with
              | Option.some p =>
                Option.some (Char.ofNat (((a * 16 + b) * 16 + c3) * 16 + d) :: p.1, p.2)
              | Option.none => Option.none
            | _, _, _, _ => Option.none
          | _ => Option.none
        else
          let dec : Option Char :=
            if e = '"' then Option.some '"'
            else if e = '\\' then Option.some '\\'
            else if e = '/' then Option.some '/'
            else if e = 'b' then Option.some (Char.ofNat 8)
            else if e = 'f' then Option.some (Char.ofNat 12)
            else if e = 'n' then Option.some '\n'
            else if e = 'r' then Option.some '\r'
            else if e = 't' then Option.some '\t'
            else Option.none
          match dec with
          | Option.some d =>
            match parseStringChars fuel cs' with
            | Option.some p => Option.some (d :: p.1, p.2)
            | Option.none => Option.none
          | Option.none => Option.none
    else if c.toNat < 32 then Option.none
    else
      match parseStringChars fuel cs with
      | Option.some p => Option.some (c :: p.1, p.2)
      | Option.none => Option.none

/-- Parse a JSON number: `-? (0 | [1-9][0-9]*) (. [0-9]+)? ([eE][+-]?[0-9]+)?`;
returns its numeral text and the remaining input. -/
def parseNumberChars (cs : List Char) : Option (List Char × List Char) :=
  let afterMinus : List Char × List Char :=
    match cs with
    | [] => ([], [])
    | c :: rest => if c = '-' then (['-'], rest) else ([], c :: rest)
  match afterMinus.2 with
  | [] => Option.none
  | c :: rest =>
    if ¬ c.isDigit then Option.none
    else
      let intPart : List Char × List Char :=
        if c = '0' then ([c], rest)
        else
          let p := takeDigits rest
          (c :: p.1, p.2)
      let fracPart : Option (List Char × List Char) :=
        match intPart.2 with
        | [] => Option.some ([], [])
        | d :: r2 =>
          if d = '.' then
            let p := takeDigits r2
            if p.1 = [] then Option.none else Option.some ('.' :: p.1, p.2)
          else Option.some ([], d :: r2)
      match fracPart with
      | Option.none => Option.none
      | Option.some fp =>
        let expPart : Option (List Char × List Char) :=
          match fp.2 with
          | [] => Option.some ([], [])
          | e :: r3 =>
            if e = 'e' ∨ e = 'E' then
              let signed : List Char × List Char :=
                match r3 with
                | [] => ([], [])
                | s :: r4 => if s = '+' ∨ s = '-' then ([s], r4) else ([], s :: r4)
              let p := takeDigits signed.2
              if p.1 = [] then Option.none
              else Option.some (e :: (signed.1 ++ p.1), p.2)
            else Option.some ([], e :: r3)
        match expPart with
        | Option.none => Option.none
        | Option.some ep =>
          Option.some (afterMinus.1 ++ intPart.1 ++ fp.1 ++ ep.1, ep.2)

mutual

/-- Parse one JSON value (fuel-bounded recursion; fuel larger than the input
length never runs out).  Follows `JSON.parse` strictness: exactly one value,
literal keywords, strict number grammar. -/
def parseValue : Nat → List Char → Option (Json × List Char)
  | 0, _ => Option.none
  | fuel + 1, cs =>
    match skipWs cs with
    | [] => Option.none
    | c :: rest =>
      if c = '"' then
        match parseStringChars (rest.length + 1) rest with
        | Option.some p => Option.some (Json.jstr (String.mk p.1), p.2)
        | Option.none => Option.none
      else if c = Char.ofNat 123 then parseObjectItems fuel (skipWs rest) true
      else if c = '[' then parseArrayItems fuel (skipWs rest) true
      else if c = 't' then
        match rest with
        | 'r' :: 'u' :: 'e' :: r => Option.some (Json.jbool true, r)
        | _ => Option.none
      else if c = 'f' then
        match rest with
        | 'a' :: 'l' :: 's' :: 'e' :: r => Option.some (Json.jbool false, r)
        | _ => Option.none
      else if c = 'n' then
        match rest with
        | 'u' :: 'l' :: 'l' :: r => Option.some (Json.jnull, r)
        | _ => Option.none
      else
        match parseNumberChars (c :: rest) with
        | Option.some p => Option.some (Json.jnum (String.mk p.1), p.2)
        | Option.none => Option.none

/-- Parse the items of a JSON array after the opening bracket (and, when
`first` is false, after a separating comma). -/
def parseArrayItems : Nat → List Char → Bool → Option (Json × List Char)
  | 0, _, _ => Option.none
  | _ + 1, [], _ => Option.none
  | fuel + 1, c :: rest, first =>
    if first ∧ c = ']' then Option.some (Json.jarr [], rest)
    else
      match parseValue fuel (c :: rest) with
      | Option.none => Option.none
      | Option.some p =>
        match skipWs p.2 with
        | ']' :: r => Option.some (Json.jarr [p.1], r)
        | ',' :: r =>
          match parseArrayItems fuel (skipWs r) false with
          | Option.some q =>
            match q.1 with
            | Json.jarr items => Option.some (Json.jarr (p.1 :: items), q.2)
            | _ => Option.none
          | Option.none => Option.none
        | _ => Option.none

/-- Parse the members of a JSON object after the opening brace (and, when
`first` is false, after a separating comma). -/
def parseObjectItems : Nat → List Char → Bool → Option (Json × List Char)
  | 0, _, _ => Option.none
  | _ + 1, [], _ => Option.none
  | fuel + 1, c :: rest, first =>
    if first ∧ c = Char.ofNat 125 then Option.some (Json.jobj [], rest)
    else if c = '"' then
      match parseStringChars (rest.length + 1) rest with
      | Option.none => Option.none
      | Option.some kp =>
        match skipWs kp.2 with
        | ':' :: r =>
          match parseValue fuel r with
          | Option.none => Option.none
          | Option.some vp =>
            match skipWs vp.2 with
            | c2 :: r2 =>
              if c2 = Char.ofNat 125 then
                Option.some (Json.jobj [(String.mk kp.1, vp.1)], r2)
              else if c2 = ',' then
                match parseObjectItems fuel (skipWs r2) false with
                | Option.some q =>
                  match q.1 with
                  | Json.jobj fields =>
                    Option.some (Json.jobj ((String.mk kp.1, vp.1) :: fields), q.2)
                  | _ => Option.none
                | Option.none => Option.none
              else Option.none
            | [] => Option.none
        | _ => Option.none
    else Option.none

end

/-- `JSON.parse(s)`: parse exactly one value with nothing but whitespace
after it; `Option.none` models a thrown `SyntaxError`. -/
def jsonParse (s : String) : Option Json :=
  match parseValue (s.length + 1) s.toList with
  | Option.some p => if skipWs p.2 = [] then Option.some p.1 else Option.none
  | Option.none => Option.none

/-- Read a string-valued field from a parsed JSON value, as JS property
access does on the result of `JSON.parse` (later duplicate keys win;
`Option.none` models `undefined` or a non-string value). -/
def jsonFieldStr (v : Json) (key : String) : Option String :=
  match v with
  | Json.jobj fields =>
    match (fields.reverse).find? (fun p => p.1 = key) with
    | Option.some p =>
      match p.2 with
      | Json.jstr s => Option.some s
      | _ => Option.none
    | Option.none => Option.none
  | _ => Option.none

/-- The JS view of a value read back as `StoredIncident` by the unchecked
cast `JSON.parse(data) as StoredIncident`: each field is `Option.none` when
it would be `undefined` (or not a string). -/
structure RawStoredView where
  status : Option String
  timestamp : Option String
deriving DecidableEq, Repr

/-- `getStoredIncident`: `data` is what `kv.get` returned (empty string is
falsy, hence treated like an absent key); a successful `JSON.parse` is used
as-is, a parse failure falls back to the legacy interpretation
`{status: 'identified', timestamp: data}`. -/
def getStoredIncidentRaw (data : Option String) : Option RawStoredView :=
  match data with
  | Option.none => Option.none
  | Option.some d =>
    if d = "" then Option.none
    else
      match jsonParse d with
      | Option.some v => Option.some ⟨jsonFieldStr v "status", jsonFieldStr v "timestamp"⟩
      | Option.none => Option.some ⟨Option.some "identified", Option.some d⟩

/-- The JSON text `storeIncident` writes for a status and timestamp (no
escaping needed for the alphanumeric statuses and ISO timestamps this
program produces). -/
def storedIncidentJson (status timestamp : String) : String :=
  "\x7b\"status\":\"" ++ status ++ "\",\"timestamp\":\"" ++ timestamp ++ "\"\x7d"

/-- Whether a queued notification is a digest. -/
def isDigestNotif : Notification → Bool
  | Notification.digest _ => true
  | _ => false

/-- Whether a queued notification is an individual new-incident card. -/
def isNewIndivNotif : Notification → Bool
  | Notification.newIncident _ => true
  | _ => false

/-- An individual new-incident card for `iid`, or a digest grouping `iid`. -/
def isNewOrDigestFor (iid : String) : Notification → Bool
  | Notification.newIncident i => decide (i.id = iid)
  | Notification.digest l => l.any (fun i => decide (i.id = iid))
  | _ => false

/-- A resolution notification for `iid`. -/
def isResolutionFor (iid : String) : Notification → Bool
  | Notification.resolution i => decide (i.id = iid)
  | _ => false

/-- A monitoring notification for `iid`. -/
def isMonitoringFor (iid : String) : Notification → Bool
  | Notification.monitoring i => decide (i.id = iid)
  | _ => false

/-- A status-progressed notification for `iid`. -/
def isStatusUpdateFor (iid : String) : Notification → Bool
  | Notification.statusUpdate i _ => decide (i.id = iid)
  | _ => false

/-- The incidents the loop pushes to `newIncidents`. -/
def newOf (store0 : String → Option StoredIncident) (mi : Option String)
    (l : List Incident) : List Incident :=
  l.filter (fun inc => (processOne (store0 inc.id) inc mi).isNew)

/-- The incidents the loop pushes to `resolvedIncidents`. -/
def resolvedOf (store0 : String → Option StoredIncident) (mi : Option String)
    (l : List Incident) : List Incident :=
  l.filter (fun inc => (processOne (store0 inc.id) inc mi).isResolved)

/-- The incidents the loop pushes to `monitoringIncidents`. -/
def monitoringOf (store0 : String → Option StoredIncident) (mi : Option String)
    (l : List Incident) : List Incident :=
  l.filter (fun inc => (processOne (store0 inc.id) inc mi).isMonitoring)

/-- The pairs the loop pushes to `statusUpdates`. -/
def updatesOf (store0 : String → Option StoredIncident) (mi : Option String)
    (l : List Incident) : List (Incident × String) :=
  l.filterMap (fun inc =>
    ((processOne (store0 inc.id) inc mi).statusUpdateOld).map (fun old => (inc, old)))

/-- The `ProcessResult` records the loop pushes to `results`. -/
def resultsOf (store0 : String → Option StoredIncident) (mi : Option String)
    (l : List Incident) : List ProcessResult :=
  l.map (fun inc => (processOne (store0 inc.id) inc mi).result)

lemma countP_ext {α : Type} (l : List α) (p q : α → Bool) (h : ∀ a ∈ l, p a = q a) :
    l.countP p = l.countP q := by
  induction l with
  | nil => rfl
  | cons a t ih =>
    rw [List.countP_cons, List.countP_cons, h a (List.mem_cons_self a t),
      ih (fun x hx => h x (List.mem_cons_of_mem a hx))]

lemma countP_filter_comb {α : Type} (l : List α) (p q : α → Bool) :
    (l.filter q).countP p = l.countP (fun a => p a && q a) := by
  induction l with
  | nil => rfl
  | cons a t ih =>
    by_cases hq : q a
    · rw [List.filter_cons_of_pos hq, List.countP_cons, List.countP_cons, ih, hq]
      by_cases hp : p a <;> simp [hp]
    · rw [List.filter_cons_of_neg hq, List.countP_cons, ih]
      simp [hq]

lemma countP_filterMap_comb {α β : Type} (l : List α) (f : α → Option β) (p : β → Bool) :
    (l.filterMap f).countP p
      = l.countP (fun a => match f a with | Option.some b => p b | Option.none => false) := by
  induction l with
  | nil => rfl
  | cons a t ih =>
    cases hf : f a with
    | none => simp [List.filterMap_cons, hf, ih, List.countP_cons]
    | some b => simp [List.filterMap_cons, hf, ih, List.countP_cons]

lemma countP_map_false {α : Type} (l : List α) (f : α → Notification) (p : Notification → Bool)
    (hp : ∀ a, p (f a) = false) : (l.map f).countP p = 0 := by
  rw [List.countP_map]
  exact List.countP_eq_zero.mpr (fun a _ => by simp [Function.comp, hp a])

lemma any_eq_false_of {α : Type} (l : List α) (p : α → Bool) (h : ∀ a ∈ l, p a = false) :
    l.any p = false := by
  induction l with
  | nil => rfl
  | cons a t ih =>
    simp only [List.any_cons, h a (List.mem_cons_self a t), Bool.false_or]
    exact ih (fun x hx => h x (List.mem_cons_of_mem a hx))

lemma id_injOn {l : List Incident} {x y : Incident}
    (hn : (l.map Incident.id).Nodup) (hx : x ∈ l) (hy : y ∈ l) (h : x.id = y.id) : x = y := by
  induction l with
  | nil => cases hx
  | cons a t ih =>
    rcases List.mem_cons.mp hx with rfl | hx' <;> rcases List.mem_cons.mp hy with h2 | hy'
    · rw [h2]
    · exact absurd (by rw [h]; exact List.mem_map_of_mem Incident.id hy')
        (List.nodup_cons.mp hn).1
    · exact absurd (by rw [← h2, ← h]; exact List.mem_map_of_mem Incident.id hx')
        (List.nodup_cons.mp hn).1
    · exact ih (List.nodup_cons.mp hn).2 hx' hy'

lemma countP_unique_id {l : List Incident} {inc : Incident} (q : Incident → Bool)
    (hn : (l.map Incident.id).Nodup) (hm : inc ∈ l) :
    l.countP (fun x => decide (x.id = inc.id) && q x) = if q inc then 1 else 0 := by
  induction l with
  | nil => cases hm
  | cons a t ih =>
    rw [List.countP_cons]
    rcases List.mem_cons.mp hm with rfl | h
    · have h0 : t.countP (fun x => decide (x.id = inc.id) && q x) = 0 := by
        refine List.countP_eq_zero.mpr (fun x hx => ?_)
        have hne : x.id ≠ inc.id := fun he =>
          (List.nodup_cons.mp hn).1 (by rw [← he]; exact List.mem_map_of_mem Incident.id hx)
        simp [hne]
      rw [h0]
      by_cases hq : q inc <;> simp [hq]
    · have hne : a.id ≠ inc.id := fun he =>
        (List.nodup_cons.mp hn).1 (by rw [he]; exact List.mem_map_of_mem Incident.id h)
      rw [ih (List.nodup_cons.mp hn).2 h]
      simp [hne]

section LoopLemmas

variable (store0 : String → Option StoredIncident) (mi : Option String) (iso : String)

lemma foldl_results (l : List Incident) (acc : LoopAcc) :
    (l.foldl (processStep store0 mi iso) acc).results
      = acc.results ++ resultsOf store0 mi l := by
  induction l generalizing acc with
  | nil => simp [resultsOf]
  | cons a t ih => simp [List.foldl_cons, ih, processStep, resultsOf]

lemma foldl_new (l : List Incident) (acc : LoopAcc) :
    (l.foldl (processStep store0 mi iso) acc).newIncidents
      = acc.newIncidents ++ newOf store0 mi l := by
  induction l generalizing acc with
  | nil => simp [newOf]
  | cons a t ih =>
    by_cases h : (processOne (store0 a.id) a mi).isNew <;>
      simp [List.foldl_cons, ih, processStep, newOf, List.filter_cons, h]

lemma foldl_resolved (l : List Incident) (acc : LoopAcc) :
    (l.foldl (processStep store0 mi iso) acc).resolvedIncidents
      = acc.resolvedIncidents ++ resolvedOf store0 mi l := by
  induction l generalizing acc with
  | nil => simp [resolvedOf]
  | cons a t ih =>
    by_cases h : (processOne (store0 a.id) a mi).isResolved <;>
      simp [List.foldl_cons, ih, processStep, resolvedOf, List.filter_cons, h]

lemma foldl_monitoring (l : List Incident) (acc : LoopAcc) :
    (l.foldl (processStep store0 mi iso) acc).monitoringIncidents
      = acc.monitoringIncidents ++ monitoringOf store0 mi l := by
  induction l generalizing acc with
  | nil => simp [monitoringOf]
  | cons a t ih =>
    by_cases h : (processOne (store0 a.id) a mi).isMonitoring <;>
      simp [List.foldl_cons, ih, processStep, monitoringOf, List.filter_cons, h]

lemma foldl_updates (l : List Incident) (acc : LoopAcc) :
    (l.foldl (processStep store0 mi iso) acc).statusUpdates
      = acc.statusUpdates ++ updatesOf store0 mi l := by
  induction l generalizing acc with
  | nil => simp [updatesOf]
  | cons a t ih =>
    cases h : (processOne (store0 a.id) a mi).statusUpdateOld <;>
      simp [List.foldl_cons, ih, processStep, updatesOf, List.filterMap_cons, h]

lemma foldl_store_not_mem (l : List Incident) (acc : LoopAcc) (iid : String)
    (h : ∀ x ∈ l, x.id ≠ iid) :
    (l.foldl (processStep store0 mi iso) acc).store iid = acc.store iid := by
  induction l generalizing acc with
  | nil => rfl
  | cons a t ih =>
    rw [List.foldl_cons, ih _ (fun x hx => h x (List.mem_cons_of_mem a hx))]
    have hne : iid ≠ a.id := fun he => h a (List.mem_cons_self a t) he.symm
    by_cases hw : (processOne (store0 a.id) a mi).storeWrite <;>
      simp [processStep, hw, hne]

lemma foldl_store_mem (l : List Incident) (acc : LoopAcc) (inc : Incident)
    (hn : (l.map Incident.id).Nodup) (hm : inc ∈ l) :
    (l.foldl (processStep store0 mi iso) acc).store inc.id
      = if (processOne (store0 inc.id) inc mi).storeWrite then
          Option.some ⟨inc.status, iso⟩
        else acc.store inc.id := by
  induction l generalizing acc with
  | nil => cases hm
  | cons a t ih =>
    rw [List.foldl_cons]
    rcases List.mem_cons.mp hm with rfl | h
    · have hnot : ∀ x ∈ t, x.id ≠ inc.id := fun x hx he =>
        (List.nodup_cons.mp hn).1 (by rw [← he]; exact List.mem_map_of_mem Incident.id hx)
      rw [foldl_store_not_mem store0 mi iso t _ inc.id hnot]
      by_cases hw : (processOne (store0 inc.id) inc mi).storeWrite <;>
        simp [processStep, hw]
    · rw [ih _ (List.nodup_cons.mp hn).2 h]
      have hne : inc.id ≠ a.id := fun he =>
        (List.nodup_cons.mp hn).1 (by rw [← he]; exact List.mem_map_of_mem Incident.id h)
      by_cases hw : (processOne (store0 a.id) a mi).storeWrite <;>
        simp [processStep, hw, hne]

lemma processLoop_results (l : List Incident) :
    (processLoop store0 mi iso l).results = resultsOf store0 mi l := by
  rw [processLoop, foldl_results]; rfl

lemma processLoop_new (l : List Incident) :
    (processLoop store0 mi iso l).newIncidents = newOf store0 mi l := by
  rw [processLoop, foldl_new]; rfl

lemma processLoop_resolved (l : List Incident) :
    (processLoop store0 mi iso l).resolvedIncidents = resolvedOf store0 mi l := by
  rw [processLoop, foldl_resolved]; rfl

lemma processLoop_monitoring (l : List Incident) :
    (processLoop store0 mi iso l).monitoringIncidents = monitoringOf store0 mi l := by
  rw [processLoop, foldl_monitoring]; rfl

lemma processLoop_updates (l : List Incident) :
    (processLoop store0 mi iso l).statusUpdates = updatesOf store0 mi l := by
  rw [processLoop, foldl_updates]; rfl

lemma processLoop_store_mem (l : List Incident) (inc : Incident)
    (hn : (l.map Incident.id).Nodup) (hm : inc ∈ l) :
    (processLoop store0 mi iso l).store inc.id
      = if (processOne (store0 inc.id) inc mi).storeWrite then
          Option.some ⟨inc.status, iso⟩
        else store0 inc.id := by
  rw [processLoop, foldl_store_mem store0 mi iso l _ inc hn hm]; rfl

end LoopLemmas

lemma runProcess_not_limited (env : EnvConfig) (st : WorkerState) (fetched : List Incident)
    (now : Int) (iso : String) (sendOk : Notification → Bool) (rr : Bool)
    (h : isRateLimited now st = false) :
    runProcess env st fetched now iso sendOk rr
      = (let recent := recentFilter fetched now
         let acc := processLoop st.incidentStore env.minImpactLevel iso recent
         let notifications := buildNotifications acc.newIncidents acc.resolvedIncidents
           acc.monitoringIncidents acc.statusUpdates
         let successful := (notifications.filter sendOk).length
         ⟨acc.results, notifications,
          ⟨acc.store,
           if successful ≠ 0 then Option.some now else st.lastNotificationAt,
           Option.some ⟨iso, successful, recent.length, notifications.length - successful⟩⟩,
          if rr then Option.some acc.results else Option.none⟩) := by
  rw [runProcess, if_neg (by rw [h]; exact Bool.false_ne_true)]

lemma runProcess_notifications (env : EnvConfig) (st : WorkerState) (fetched : List Incident)
    (now : Int) (iso : String) (sendOk : Notification → Bool) (rr : Bool)
    (h : isRateLimited now st = false) :
    (runProcess env st fetched now iso sendOk rr).notifications
      = buildNotifications
          (newOf st.incidentStore env.minImpactLevel (recentFilter fetched now))
          (resolvedOf st.incidentStore env.minImpactLevel (recentFilter fetched now))
          (monitoringOf st.incidentStore env.minImpactLevel (recentFilter fetched now))
          (updatesOf st.incidentStore env.minImpactLevel (recentFilter fetched now)) := by
  rw [runProcess_not_limited env st fetched now iso sendOk rr h]
  simp only [processLoop_new, processLoop_resolved, processLoop_monitoring, processLoop_updates]

lemma runProcess_results (env : EnvConfig) (st : WorkerState) (fetched : List Incident)
    (now : Int) (iso : String) (sendOk : Notification → Bool) (rr : Bool)
    (h : isRateLimited now st = false) :
    (runProcess env st fetched now iso sendOk rr).results
      = resultsOf st.incidentStore env.minImpactLevel (recentFilter fetched now) := by
  rw [runProcess_not_limited env st fetched now iso sendOk rr h]
  simp only [processLoop_results]

lemma runProcess_store (env : EnvConfig) (st : WorkerState) (fetched : List Incident)
    (now : Int) (iso : String) (sendOk : Notification → Bool) (rr : Bool)
    (h : isRateLimited now st = false) :
    (runProcess env st fetched now iso sendOk rr).finalState.incidentStore
      = (processLoop st.incidentStore env.minImpactLevel iso (recentFilter fetched now)).store := by
  rw [runProcess_not_limited env st fetched now iso sendOk rr h]

lemma mem_recentFilter (fetched : List Incident) (now : Int) (inc : Incident)
    (h1 : inc ∈ fetched) (h2 : now - inc.startedAt < RECENT_INCIDENT_MS) :
    inc ∈ recentFilter fetched now := by
  rw [recentFilter, List.mem_filter]
  exact ⟨h1, by simpa using h2⟩

lemma recentFilter_nodup (fetched : List Incident) (now : Int)
    (h : (fetched.map Incident.id).Nodup) :
    ((recentFilter fetched now).map Incident.id).Nodup :=
  List.Nodup.sublist (List.Sublist.map Incident.id (List.filter_sublist fetched)) h

section BranchLemmas

variable {si : StoredIncident} {inc : Incident} {mi : Option String}

lemma processOne_filtered (s : Option StoredIncident)
    (hf : shouldFilterByImpact inc mi = true) :
    processOne s inc mi
      = ⟨⟨inc.id, inc.name, inc.impact, inc.status, storedStatusView s, Action.filtered⟩,
          false, false, false, Option.none, false⟩ := by
  simp [processOne, hf]

lemma processOne_none_new (hf : shouldFilterByImpact inc mi = false)
    (hs : inc.status ≠ "resolved") :
    processOne Option.none inc mi
      = ⟨⟨inc.id, inc.name, inc.impact, inc.status, Option.none,
           Action.new_incident_notification⟩,
          true, false, false, Option.none, true⟩ := by
  simp [processOne, hf, hs, storedStatusView]

lemma processOne_none_already_resolved (hf : shouldFilterByImpact inc mi = false)
    (hs : inc.status = "resolved") :
    processOne Option.none inc mi
      = ⟨⟨inc.id, inc.name, inc.impact, inc.status, Option.none, Action.none⟩,
          false, false, false, Option.none, true⟩ := by
  simp [processOne, hf, hs, storedStatusView]

lemma processOne_resolution (hf : shouldFilterByImpact inc mi = false)
    (h1 : si.status ≠ "resolved") (h2 : inc.status = "resolved") :
    processOne (Option.some si) inc mi
      = ⟨⟨inc.id, inc.name, inc.impact, inc.status, storedStatusView (Option.some si),
           Action.resolution_notification⟩,
          false, true, false, Option.none, true⟩ := by
  simp [processOne, hf, h1, h2]

lemma processOne_monitoring (hf : shouldFilterByImpact inc mi = false)
    (hnr : ¬(si.status ≠ "resolved" ∧ inc.status = "resolved"))
    (h1 : si.status ≠ "monitoring") (h2 : inc.status = "monitoring") :
    processOne (Option.some si) inc mi
      = ⟨⟨inc.id, inc.name, inc.impact, inc.status, storedStatusView (Option.some si),
           Action.monitoring_notification⟩,
          false, false, true, Option.none, true⟩ := by
  simp only [processOne]
  rw [if_neg (by simp [hf]), if_neg hnr, if_pos ⟨h1, h2⟩]

lemma processOne_statusChange (hf : shouldFilterByImpact inc mi = false)
    (hnr : ¬(si.status ≠ "resolved" ∧ inc.status = "resolved"))
    (hnm : ¬(si.status ≠ "monitoring" ∧ inc.status = "monitoring"))
    (hne : si.status ≠ inc.status) :
    processOne (Option.some si) inc mi
      = if statusPriority si.status < statusPriority inc.status then
          ⟨⟨inc.id, inc.name, inc.impact, inc.status, storedStatusView (Option.some si),
             Action.status_updated⟩,
            false, false, false, Option.some si.status, true⟩
        else
          ⟨⟨inc.id, inc.name, inc.impact, inc.status, storedStatusView (Option.some si),
             Action.none⟩,
            false, false, false, Option.none, true⟩ := by
  simp only [processOne]
  rw [if_neg (by simp [hf]), if_neg hnr, if_neg hnm, if_pos hne]

lemma processOne_unchanged (hf : shouldFilterByImpact inc mi = false)
    (heq : si.status = inc.status) :
    processOne (Option.some si) inc mi
      = ⟨⟨inc.id, inc.name, inc.impact, inc.status, storedStatusView (Option.some si),
           Action.none⟩,
          false, false, false, Option.none, false⟩ := by
  simp only [processOne]
  rw [if_neg (by simp [hf]), if_neg (by rw [heq]; exact fun h => h.1 h.2),
    if_neg (by rw [heq]; exact fun h => h.1 h.2), if_neg (by rw [heq]; exact fun h => h rfl)]

lemma processOne_no_filter_eq (s : Option StoredIncident)
    (hf : shouldFilterByImpact inc mi = false) :
    processOne s inc mi = processOne s inc Option.none := by
  have h0 : shouldFilterByImpact inc Option.none = false := rfl
  simp only [processOne, hf, h0, Bool.false_eq_true, if_false]

lemma processOne_action_ne_digest (s : Option StoredIncident) :
    (processOne s inc mi).result.action ≠ Action.digest_notification := by
  by_cases hf : shouldFilterByImpact inc mi = true
  · rw [processOne_filtered s hf]; exact fun h => by cases h
  · rw [Bool.not_eq_true] at hf
    cases s with
    | none =>
      by_cases hs : inc.status = "resolved"
      · rw [processOne_none_already_resolved hf hs]; exact fun h => by cases h
      · rw [processOne_none_new hf hs]; exact fun h => by cases h
    | some si =>
      by_cases h1 : si.status ≠ "resolved" ∧ inc.status = "resolved"
      · rw [processOne_resolution hf h1.1 h1.2]; exact fun h => by cases h
      · by_cases h2 : si.status ≠ "monitoring" ∧ inc.status = "monitoring"
        · rw [processOne_monitoring hf h1 h2.1 h2.2]; exact fun h => by cases h
        · by_cases h3 : si.status = inc.status
          · rw [processOne_unchanged hf h3]; exact fun h => by cases h
          · rw [processOne_statusChange hf h1 h2 h3]
            by_cases hp : statusPriority si.status < statusPriority inc.status <;>
              simp [hp]

lemma processOne_isNew_iff (s : Option StoredIncident) :
    (processOne s inc mi).isNew = true
      ↔ shouldFilterByImpact inc mi = false ∧ s = Option.none ∧ inc.status ≠ "resolved" := by
  constructor
  · intro h
    by_cases hf : shouldFilterByImpact inc mi = true
    · rw [processOne_filtered s hf] at h; cases h
    · rw [Bool.not_eq_true] at hf
      cases s with
      | none =>
        by_cases hs : inc.status = "resolved"
        · rw [processOne_none_already_resolved hf hs] at h; cases h
        · exact ⟨hf, rfl, hs⟩
      | some si =>
        by_cases h1 : si.status ≠ "resolved" ∧ inc.status = "resolved"
        · rw [processOne_resolution hf h1.1 h1.2] at h; cases h
        · by_cases h2 : si.status ≠ "monitoring" ∧ inc.status = "monitoring"
          · rw [processOne_monitoring hf h1 h2.1 h2.2] at h; cases h
          · by_cases h3 : si.status = inc.status
            · rw [processOne_unchanged hf h3] at h; cases h
            · rw [processOne_statusChange hf h1 h2 h3] at h
              by_cases hp : statusPriority si.status < statusPriority inc.status <;>
                simp [hp] at h
  · rintro ⟨hf, rfl, hs⟩
    rw [processOne_none_new hf hs]

lemma processOne_isNew_action (s : Option StoredIncident)
    (h : (processOne s inc mi).isNew = true) :
    (processOne s inc mi).result.action = Action.new_incident_notification := by
  obtain ⟨hf, rfl, hs⟩ := (processOne_isNew_iff s).mp h
  rw [processOne_none_new hf hs]

end BranchLemmas

section CountLemmas

variable (store0 : String → Option StoredIncident) (mi : Option String)
variable {l : List Incident} {inc : Incident}

lemma newPartOf_eq_digest {NL : List Incident} (h3 : DIGEST_THRESHOLD ≤ NL.length) :
    newPartOf NL = [Notification.digest NL] := by
  rw [newPartOf, if_pos (Nat.lt_of_lt_of_le (by decide) h3), if_pos h3]

lemma newPartOf_eq_map {NL : List Incident} (h0 : 0 < NL.length)
    (h3 : NL.length < DIGEST_THRESHOLD) :
    newPartOf NL = NL.map Notification.newIncident := by
  rw [newPartOf, if_pos h0, if_neg (Nat.not_le_of_lt h3)]

lemma countP_map_mismatch {α : Type} (L : List α) (f : α → Notification)
    (p : Notification → Bool) (hp : ∀ a, p (f a) = false) : (L.map f).countP p = 0 :=
  countP_map_false L f p hp

lemma countP_newPartOf_false (NL : List Incident) (p : Notification → Bool)
    (hp1 : ∀ i, p (Notification.newIncident i) = false)
    (hp2 : ∀ L, p (Notification.digest L) = false) :
    (newPartOf NL).countP p = 0 := by
  rw [newPartOf]
  by_cases h0 : 0 < NL.length
  · rw [if_pos h0]
    by_cases h3 : DIGEST_THRESHOLD ≤ NL.length
    · rw [if_pos h3, List.countP_cons, List.countP_nil, hp2]; rfl
    · rw [if_neg h3]; exact countP_map_false NL _ p hp1
  · rw [if_neg h0]; rfl

lemma countP_newPartOf_targets (hn : (l.map Incident.id).Nodup) (hm : inc ∈ l)
    (p : Notification → Bool)
    (hp1 : ∀ i, p (Notification.newIncident i) = decide (i.id = inc.id))
    (hp2 : ∀ L, p (Notification.digest L) = L.any (fun i => decide (i.id = inc.id))) :
    (newPartOf (newOf store0 mi l)).countP p
      = if (processOne (store0 inc.id) inc mi).isNew then 1 else 0 := by
  by_cases hnew : (processOne (store0 inc.id) inc mi).isNew
  · have hmNL : inc ∈ newOf store0 mi l := List.mem_filter.mpr ⟨hm, hnew⟩
    rw [if_pos hnew, newPartOf]
    have h0 : 0 < (newOf store0 mi l).length := List.length_pos.mpr (fun he => by
      rw [he] at hmNL; cases hmNL)
    rw [if_pos h0]
    by_cases h3 : DIGEST_THRESHOLD ≤ (newOf store0 mi l).length
    · rw [if_pos h3, List.countP_cons, List.countP_nil, hp2]
      rw [List.any_eq_true.mpr ⟨inc, hmNL, by simp⟩]
      rfl
    · rw [if_neg h3, List.countP_map]
      rw [countP_ext _ _ (fun i => decide (i.id = inc.id))
        (fun x _ => by simp [Function.comp, hp1 x])]
      rw [newOf, countP_filter_comb]
      rw [countP_unique_id (fun x => (processOne (store0 x.id) x mi).isNew) hn hm]
      rw [if_pos hnew]
  · have hzero : ∀ x ∈ newOf store0 mi l, decide (x.id = inc.id) = false := by
      intro x hx
      have hx' := List.mem_filter.mp hx
      by_cases he : x.id = inc.id
      · exact absurd (id_injOn hn hx'.1 hm he ▸ hx'.2) hnew
      · simp [he]
    rw [if_neg hnew, newPartOf]
    by_cases h0 : 0 < (newOf store0 mi l).length
    · rw [if_pos h0]
      by_cases h3 : DIGEST_THRESHOLD ≤ (newOf store0 mi l).length
      · rw [if_pos h3, List.countP_cons, List.countP_nil, hp2,
          any_eq_false_of _ _ hzero]
        rfl
      · rw [if_neg h3, List.countP_map]
        refine List.countP_eq_zero.mpr (fun x hx => ?_)
        simp only [Function.comp, hp1 x]
        exact fun hc => by rw [hzero x hx] at hc; cases hc
    · rw [if_neg h0]; rfl

lemma countP_map_filter_targets (hn : (l.map Incident.id).Nodup) (hm : inc ∈ l)
    (g : Incident → Bool) (f : Incident → Notification) (p : Notification → Bool)
    (hp : ∀ i, p (f i) = decide (i.id = inc.id)) :
    (((l.filter g).map f)).countP p = if g inc then 1 else 0 := by
  rw [List.countP_map,
    countP_ext _ _ (fun i => decide (i.id = inc.id)) (fun x _ => by simp [Function.comp, hp x]),
    countP_filter_comb, countP_unique_id g hn hm]

lemma countP_updates_targets (hn : (l.map Incident.id).Nodup) (hm : inc ∈ l)
    (p : Notification → Bool)
    (hp : ∀ i old, p (Notification.statusUpdate i old) = decide (i.id = inc.id)) :
    ((updatesOf store0 mi l).map (fun q => Notification.statusUpdate q.1 q.2)).countP p
      = if ((processOne (store0 inc.id) inc mi).statusUpdateOld).isSome then 1 else 0 := by
  rw [List.countP_map, updatesOf, countP_filterMap_comb]
  rw [countP_ext _ _
    (fun x => decide (x.id = inc.id) && ((processOne (store0 x.id) x mi).statusUpdateOld).isSome)
    (fun x _ => by
      cases h : (processOne (store0 x.id) x mi).statusUpdateOld with
      | none => simp [h]
      | some old => simp [h, Function.comp, hp x old])]
  rw [countP_unique_id (fun x => ((processOne (store0 x.id) x mi).statusUpdateOld).isSome) hn hm]

lemma count_notifies (hn : (l.map Incident.id).Nodup) (hm : inc ∈ l) :
    (buildNotifications (newOf store0 mi l) (resolvedOf store0 mi l)
        (monitoringOf store0 mi l) (updatesOf store0 mi l)).countP
      (notifiesIncident inc.id)
    = (if (processOne (store0 inc.id) inc mi).isNew then 1 else 0)
      + (if (processOne (store0 inc.id) inc mi).isResolved then 1 else 0)
      + (if (processOne (store0 inc.id) inc mi).isMonitoring then 1 else 0)
      + (if ((processOne (store0 inc.id) inc mi).statusUpdateOld).isSome then 1 else 0) := by
  rw [buildNotifications, List.countP_append, List.countP_append, List.countP_append]
  rw [countP_newPartOf_targets store0 mi hn hm _ (fun i => rfl) (fun L => rfl)]
  rw [show resolvedOf store0 mi l
      = l.filter (fun x => (processOne (store0 x.id) x mi).isResolved) from rfl]
  rw [countP_map_filter_targets hn hm _ Notification.resolution _ (fun i => rfl)]
  rw [show monitoringOf store0 mi l
      = l.filter (fun x => (processOne (store0 x.id) x mi).isMonitoring) from rfl]
  rw [countP_map_filter_targets hn hm _ Notification.monitoring _ (fun i => rfl)]
  rw [countP_updates_targets store0 mi hn hm _ (fun i old => rfl)]

lemma count_newOrDigest (hn : (l.map Incident.id).Nodup) (hm : inc ∈ l) :
    (buildNotifications (newOf store0 mi l) (resolvedOf store0 mi l)
        (monitoringOf store0 mi l) (updatesOf store0 mi l)).countP
      (isNewOrDigestFor inc.id)
    = if (processOne (store0 inc.id) inc mi).isNew then 1 else 0 := by
  rw [buildNotifications, List.countP_append, List.countP_append, List.countP_append]
  rw [countP_newPartOf_targets store0 mi hn hm _ (fun i => rfl) (fun L => rfl)]
  rw [countP_map_mismatch _ Notification.resolution _ (fun i => rfl)]
  rw [countP_map_mismatch _ Notification.monitoring _ (fun i => rfl)]
  rw [countP_map_mismatch (updatesOf store0 mi l)
    (fun q => Notification.statusUpdate q.1 q.2) _ (fun q => rfl)]
  simp

lemma count_resolutionFor (hn : (l.map Incident.id).Nodup) (hm : inc ∈ l) :
    (buildNotifications (newOf store0 mi l) (resolvedOf store0 mi l)
        (monitoringOf store0 mi l) (updatesOf store0 mi l)).countP
      (isResolutionFor inc.id)
    = if (processOne (store0 inc.id) inc mi).isResolved then 1 else 0 := by
  rw [buildNotifications, List.countP_append, List.countP_append, List.countP_append]
  rw [countP_newPartOf_false _ _ (fun i => rfl) (fun L => rfl)]
  rw [show resolvedOf store0 mi l
      = l.filter (fun x => (processOne (store0 x.id) x mi).isResolved) from rfl]
  rw [countP_map_filter_targets hn hm _ Notification.resolution _ (fun i => rfl)]
  rw [countP_map_mismatch _ Notification.monitoring _ (fun i => rfl)]
  rw [countP_map_mismatch (updatesOf store0 mi l)
    (fun q => Notification.statusUpdate q.1 q.2) _ (fun q => rfl)]
  simp

lemma count_monitoringFor (hn : (l.map Incident.id).Nodup) (hm : inc ∈ l) :
    (buildNotifications (newOf store0 mi l) (resolvedOf store0 mi l)
        (monitoringOf store0 mi l) (updatesOf store0 mi l)).countP
      (isMonitoringFor inc.id)
    = if (processOne (store0 inc.id) inc mi).isMonitoring then 1 else 0 := by
  rw [buildNotifications, List.countP_append, List.countP_append, List.countP_append]
  rw [countP_newPartOf_false _ _ (fun i => rfl) (fun L => rfl)]
  rw [countP_map_mismatch _ Notification.resolution _ (fun i => rfl)]
  rw [show monitoringOf store0 mi l
      = l.filter (fun x => (processOne (store0 x.id) x mi).isMonitoring) from rfl]
  rw [countP_map_filter_targets hn hm _ Notification.monitoring _ (fun i => rfl)]
  rw [countP_map_mismatch (updatesOf store0 mi l)
    (fun q => Notification.statusUpdate q.1 q.2) _ (fun q => rfl)]
  simp

lemma count_statusUpdateFor (hn : (l.map Incident.id).Nodup) (hm : inc ∈ l) :
    (buildNotifications (newOf store0 mi l) (resolvedOf store0 mi l)
        (monitoringOf store0 mi l) (updatesOf store0 mi l)).countP
      (isStatusUpdateFor inc.id)
    = if ((processOne (store0 inc.id) inc mi).statusUpdateOld).isSome then 1 else 0 := by
  rw [buildNotifications, List.countP_append, List.countP_append, List.countP_append]
  rw [countP_newPartOf_false _ _ (fun i => rfl) (fun L => rfl)]
  rw [countP_map_mismatch _ Notification.resolution _ (fun i => rfl)]
  rw [countP_map_mismatch _ Notification.monitoring _ (fun i => rfl)]
  rw [countP_updates_targets store0 mi hn hm _ (fun i old => rfl)]
  simp

end CountLemmas

lemma runProcess_limited (env : EnvConfig) (st : WorkerState) (fetched : List Incident)
    (now : Int) (iso : String) (sendOk : Notification → Bool) (rr : Bool)
    (h : isRateLimited now st = true) :
    runProcess env st fetched now iso sendOk rr
      = ⟨[], [], st, if rr then Option.some [] else Option.none⟩ := by
  rw [runProcess, if_pos h]

lemma runProcess_marker (env : EnvConfig) (st : WorkerState) (fetched : List Incident)
    (now : Int) (iso : String) (sendOk : Notification → Bool) (rr : Bool)
    (h : isRateLimited now st = false) :
    (runProcess env st fetched now iso sendOk rr).finalState.lastNotificationAt
      = (if ((buildNotifications
              (newOf st.incidentStore env.minImpactLevel (recentFilter fetched now))
              (resolvedOf st.incidentStore env.minImpactLevel (recentFilter fetched now))
              (monitoringOf st.incidentStore env.minImpactLevel (recentFilter fetched now))
              (updatesOf st.incidentStore env.minImpactLevel (recentFilter fetched now))).filter
                sendOk).length ≠ 0
         then Option.some now else st.lastNotificationAt) := by
  rw [runProcess_not_limited env st fetched now iso sendOk rr h]
  simp only [processLoop_new, processLoop_resolved, processLoop_monitoring, processLoop_updates]

/-- After the loop has written an incident's current status (or left the
store untouched because no branch wrote), reclassifying the same incident
against the written value takes no action: this is the per-incident core of
run-to-run idempotence. -/
lemma processOne_stable (ov : Option StoredIncident) (inc : Incident) (mi : Option String)
    (iso : String) :
    (processOne (if (processOne ov inc mi).storeWrite then Option.some ⟨inc.status, iso⟩ else ov)
        inc mi).isNew = false
    ∧ (processOne (if (processOne ov inc mi).storeWrite then Option.some ⟨inc.status, iso⟩ else ov)
        inc mi).isResolved = false
    ∧ (processOne (if (processOne ov inc mi).storeWrite then Option.some ⟨inc.status, iso⟩ else ov)
        inc mi).isMonitoring = false
    ∧ (processOne (if (processOne ov inc mi).storeWrite then Option.some ⟨inc.status, iso⟩ else ov)
        inc mi).statusUpdateOld = Option.none := by
  by_cases hf : shouldFilterByImpact inc mi = true
  · simp [processOne_filtered _ hf]
  · rw [Bool.not_eq_true] at hf
    have hwritten : (processOne (Option.some (⟨inc.status, iso⟩ : StoredIncident)) inc mi)
        = ⟨⟨inc.id, inc.name, inc.impact, inc.status,
             storedStatusView (Option.some ⟨inc.status, iso⟩), Action.none⟩,
            false, false, false, Option.none, false⟩ :=
      @processOne_unchanged ⟨inc.status, iso⟩ inc mi hf rfl
    cases ov with
    | none =>
      by_cases hs : inc.status = "resolved"
      · rw [processOne_none_already_resolved hf hs]
        simp [hwritten]
      · rw [processOne_none_new hf hs]
        simp [hwritten]
    | some si =>
      by_cases h1 : si.status ≠ "resolved" ∧ inc.status = "resolved"
      · rw [processOne_resolution hf h1.1 h1.2]
        simp [hwritten]
      · by_cases h2 : si.status ≠ "monitoring" ∧ inc.status = "monitoring"
        · rw [processOne_monitoring hf h1 h2.1 h2.2]
          simp [hwritten]
        · by_cases h3 : si.status = inc.status
          · rw [processOne_unchanged hf h3]
            simp [processOne_unchanged hf h3]
          · rw [processOne_statusChange hf h1 h2 h3]
            by_cases hpr : statusPriority si.status < statusPriority inc.status <;>
              simp [hpr, hwritten]

lemma digest_mem_newPartOf {NL L : List Incident}
    (h : Notification.digest L ∈ newPartOf NL) : L = NL := by
  rw [newPartOf] at h
  by_cases h0 : 0 < NL.length
  · rw [if_pos h0] at h
    by_cases h3 : DIGEST_THRESHOLD ≤ NL.length
    · rw [if_pos h3] at h
      have := List.mem_singleton.mp h
      injection this
    · rw [if_neg h3] at h
      obtain ⟨x, _, hx⟩ := List.mem_map.mp h
      cases hx
  · rw [if_neg h0] at h
    cases h

/-- C1: for every incident in the recency-filtered list with no stored prior
state that is not filtered by impact, if its status is not "resolved" then
exactly one new-incident notification (individual or digest) targets it —
and it is the only notification of any kind targeting it — and its id is
written to the store at its current status; if its status is already
"resolved", no notification of any kind targets it but the store write still
happens. -/
theorem c1_new_incident_notify_and_store
    (env : EnvConfig) (st : WorkerState) (fetched : List Incident) (now : Int)
    (iso : String) (sendOk : Notification → Bool) (rr : Bool) (inc : Incident)
    (hrl : isRateLimited now st = false)
    (hn : (fetched.map Incident.id).Nodup)
    (hmem : inc ∈ fetched)
    (hrecent : now - inc.startedAt < RECENT_INCIDENT_MS)
    (hstored : st.incidentStore inc.id = Option.none)
    (hfil : shouldFilterByImpact inc env.minImpactLevel = false) :
    (inc.status ≠ "resolved" →
      (runProcess env st fetched now iso sendOk rr).notifications.countP
          (isNewOrDigestFor inc.id) = 1
      ∧ (runProcess env st fetched now iso sendOk rr).notifications.countP
          (notifiesIncident inc.id) = 1
      ∧ (runProcess env st fetched now iso sendOk rr).finalState.incidentStore inc.id
          = Option.some ⟨inc.status, iso⟩)
    ∧ (inc.status = "resolved" →
      (runProcess env st fetched now iso sendOk rr).notifications.countP
          (notifiesIncident inc.id) = 0
      ∧ (runProcess env st fetched now iso sendOk rr).finalState.incidentStore inc.id
          = Option.some ⟨inc.status, iso⟩) := by
  have hmr : inc ∈ recentFilter fetched now := mem_recentFilter fetched now inc hmem hrecent
  have hnr : ((recentFilter fetched now).map Incident.id).Nodup := recentFilter_nodup fetched now hn
  constructor
  · intro hs
    have hp := @processOne_none_new inc env.minImpactLevel hfil hs
    refine ⟨?_, ?_, ?_⟩
    · rw [runProcess_notifications env st fetched now iso sendOk rr hrl,
        count_newOrDigest st.incidentStore env.minImpactLevel hnr hmr, hstored, hp]
      simp
    · rw [runProcess_notifications env st fetched now iso sendOk rr hrl,
        count_notifies st.incidentStore env.minImpactLevel hnr hmr, hstored, hp]
      simp
    · rw [runProcess_store env st fetched now iso sendOk rr hrl,
        processLoop_store_mem st.incidentStore env.minImpactLevel iso
          (recentFilter fetched now) inc hnr hmr, hstored, hp]
      simp
  · intro hs
    have hp := @processOne_none_already_resolved inc env.minImpactLevel hfil hs
    refine ⟨?_, ?_⟩
    · rw [runProcess_notifications env st fetched now iso sendOk rr hrl,
        count_notifies st.incidentStore env.minImpactLevel hnr hmr, hstored, hp]
      simp
    · rw [runProcess_store env st fetched now iso sendOk rr hrl,
        processLoop_store_mem st.incidentStore env.minImpactLevel iso
          (recentFilter fetched now) inc hnr hmr, hstored, hp]
      simp

/-- C2: for every incident in the recency-filtered list whose stored status
is not "resolved" and whose current status is "resolved", exactly one
resolution notification targets it, no status-progressed and no monitoring
notification targets it in the same run (the resolved rule takes
precedence; the branches are mutually exclusive — it receives exactly one
notification in total), and its state is written. -/
theorem c2_resolution_takes_precedence
    (env : EnvConfig) (st : WorkerState) (fetched : List Incident) (now : Int)
    (iso : String) (sendOk : Notification → Bool) (rr : Bool) (inc : Incident)
    (si : StoredIncident)
    (hrl : isRateLimited now st = false)
    (hn : (fetched.map Incident.id).Nodup)
    (hmem : inc ∈ fetched)
    (hrecent : now - inc.startedAt < RECENT_INCIDENT_MS)
    (hstored : st.incidentStore inc.id = Option.some si)
    (hfil : shouldFilterByImpact inc env.minImpactLevel = false)
    (h1 : si.status ≠ "resolved") (h2 : inc.status = "resolved") :
    (runProcess env st fetched now iso sendOk rr).notifications.countP
        (isResolutionFor inc.id) = 1
    ∧ (runProcess env st fetched now iso sendOk rr).notifications.countP
        (isStatusUpdateFor inc.id) = 0
    ∧ (runProcess env st fetched now iso sendOk rr).notifications.countP
        (isMonitoringFor inc.id) = 0
    ∧ (runProcess env st fetched now iso sendOk rr).notifications.countP
        (notifiesIncident inc.id) = 1
    ∧ (runProcess env st fetched now iso sendOk rr).finalState.incidentStore inc.id
        = Option.some ⟨inc.status, iso⟩ := by
  have hmr : inc ∈ recentFilter fetched now := mem_recentFilter fetched now inc hmem hrecent
  have hnr : ((recentFilter fetched now).map Incident.id).Nodup := recentFilter_nodup fetched now hn
  have hp := @processOne_resolution si inc env.minImpactLevel hfil h1 h2
  refine ⟨?_, ?_, ?_, ?_, ?_⟩
  · rw [runProcess_notifications env st fetched now iso sendOk rr hrl,
      count_resolutionFor st.incidentStore env.minImpactLevel hnr hmr, hstored, hp]
    simp
  · rw [runProcess_notifications env st fetched now iso sendOk rr hrl,
      count_statusUpdateFor st.incidentStore env.minImpactLevel hnr hmr, hstored, hp]
    simp
  · rw [runProcess_notifications env st fetched now iso sendOk rr hrl,
      count_monitoringFor st.incidentStore env.minImpactLevel hnr hmr, hstored, hp]
    simp
  · rw [runProcess_notifications env st fetched now iso sendOk rr hrl,
      count_notifies st.incidentStore env.minImpactLevel hnr hmr, hstored, hp]
    simp
  · rw [runProcess_store env st fetched now iso sendOk rr hrl,
      processLoop_store_mem st.incidentStore env.minImpactLevel iso
        (recentFilter fetched now) inc hnr hmr, hstored, hp]
    simp

/-- C5: for every incident in the recency-filtered list with stored prior
state, a differing current status, and no match of the resolved or
monitoring transition rules, the new status is written to the store
unconditionally, while a status-progressed notification targets it exactly
when the ordinal priority of the new status is strictly greater than the
old one — and it receives no notification of any other kind. -/
theorem c5_silent_write_on_non_progression
    (env : EnvConfig) (st : WorkerState) (fetched : List Incident) (now : Int)
    (iso : String) (sendOk : Notification → Bool) (rr : Bool) (inc : Incident)
    (si : StoredIncident)
    (hrl : isRateLimited now st = false)
    (hn : (fetched.map Incident.id).Nodup)
    (hmem : inc ∈ fetched)
    (hrecent : now - inc.startedAt < RECENT_INCIDENT_MS)
    (hstored : st.incidentStore inc.id = Option.some si)
    (hfil : shouldFilterByImpact inc env.minImpactLevel = false)
    (hne : si.status ≠ inc.status)
    (hnres : ¬(si.status ≠ "resolved" ∧ inc.status = "resolved"))
    (hnmon : ¬(si.status ≠ "monitoring" ∧ inc.status = "monitoring")) :
    (runProcess env st fetched now iso sendOk rr).finalState.incidentStore inc.id
        = Option.some ⟨inc.status, iso⟩
    ∧ (runProcess env st fetched now iso sendOk rr).notifications.countP
        (isStatusUpdateFor inc.id)
      = (if statusPriority si.status < statusPriority inc.status then 1 else 0)
    ∧ (runProcess env st fetched now iso sendOk rr).notifications.countP
        (notifiesIncident inc.id)
      = (if statusPriority si.status < statusPriority inc.status then 1 else 0) := by
  have hmr : inc ∈ recentFilter fetched now := mem_recentFilter fetched now inc hmem hrecent
  have hnr : ((recentFilter fetched now).map Incident.id).Nodup := recentFilter_nodup fetched now hn
  have hp := @processOne_statusChange si inc env.minImpactLevel hfil hnres hnmon hne
  refine ⟨?_, ?_, ?_⟩
  · rw [runProcess_store env st fetched now iso sendOk rr hrl,
      processLoop_store_mem st.incidentStore env.minImpactLevel iso
        (recentFilter fetched now) inc hnr hmr, hstored, hp]
    by_cases hpr : statusPriority si.status < statusPriority inc.status <;> simp [hpr]
  · rw [runProcess_notifications env st fetched now iso sendOk rr hrl,
      count_statusUpdateFor st.incidentStore env.minImpactLevel hnr hmr, hstored, hp]
    by_cases hpr : statusPriority si.status < statusPriority inc.status <;> simp [hpr]
  · rw [runProcess_notifications env st fetched now iso sendOk rr hrl,
      count_notifies st.incidentStore env.minImpactLevel hnr hmr, hstored, hp]
    by_cases hpr : statusPriority si.status < statusPriority inc.status <;> simp [hpr]

/-- C3: with a configured minimum impact level, an incident strictly below
it is reported as `filtered`, with no store write and no notification of
any kind — and this regardless of the stored state (the gate runs before
any state-diff logic: the first conjunct has no hypothesis about the
store); an incident at or above the minimum level is classified exactly as
it would be with no filter configured. -/
theorem c3_impact_filter_is_hard_gate
    (env : EnvConfig) (st : WorkerState) (fetched : List Incident) (now : Int)
    (iso : String) (sendOk : Notification → Bool) (rr : Bool) (inc : Incident)
    (m : String)
    (hrl : isRateLimited now st = false)
    (hn : (fetched.map Incident.id).Nodup)
    (hmem : inc ∈ fetched)
    (hrecent : now - inc.startedAt < RECENT_INCIDENT_MS)
    (hmi : env.minImpactLevel = Option.some m) (hm : m ≠ "") :
    (impactLevel inc.impact < impactLevel m →
      (processOne (st.incidentStore inc.id) inc env.minImpactLevel).result
          ∈ (runProcess env st fetched now iso sendOk rr).results
      ∧ (processOne (st.incidentStore inc.id) inc env.minImpactLevel).result.action
          = Action.filtered
      ∧ (runProcess env st fetched now iso sendOk rr).finalState.incidentStore inc.id
          = st.incidentStore inc.id
      ∧ (runProcess env st fetched now iso sendOk rr).notifications.countP
          (notifiesIncident inc.id) = 0)
    ∧ (impactLevel m ≤ impactLevel inc.impact →
      processOne (st.incidentStore inc.id) inc env.minImpactLevel
        = processOne (st.incidentStore inc.id) inc Option.none) := by
  have hmr : inc ∈ recentFilter fetched now := mem_recentFilter fetched now inc hmem hrecent
  have hnr : ((recentFilter fetched now).map Incident.id).Nodup := recentFilter_nodup fetched now hn
  constructor
  · intro hlt
    have hft : shouldFilterByImpact inc env.minImpactLevel = true := by
      rw [hmi]; simp [shouldFilterByImpact, hm, hlt]
    have hp := @processOne_filtered inc env.minImpactLevel (st.incidentStore inc.id) hft
    refine ⟨?_, ?_, ?_, ?_⟩
    · rw [runProcess_results env st fetched now iso sendOk rr hrl, resultsOf]
      exact List.mem_map_of_mem _ hmr
    · rw [hp]
    · rw [runProcess_store env st fetched now iso sendOk rr hrl,
        processLoop_store_mem st.incidentStore env.minImpactLevel iso
          (recentFilter fetched now) inc hnr hmr, hp]
      simp
    · rw [runProcess_notifications env st fetched now iso sendOk rr hrl,
        count_notifies st.incidentStore env.minImpactLevel hnr hmr, hp]
      simp
  · intro hle
    have hf : shouldFilterByImpact inc env.minImpactLevel = false := by
      rw [hmi]; simp [shouldFilterByImpact, hm, Nat.not_lt.mpr hle]
    exact processOne_no_filter_eq (st.incidentStore inc.id) hf

/-- C6: when the time elapsed since the last-notification marker is
strictly below the 1-minute cooldown, the pass returns immediately: for any
fetched list and any dispatch outcomes (the result does not depend on
them — no fetch is consulted), the output carries no results, no
notifications, the state — store, marker and metrics — unchanged, and a
manual caller (`returnResults = true`) is handed the empty result list. -/
theorem c6_rate_limited_pass_is_noop
    (env : EnvConfig) (st : WorkerState) (t now : Int) (iso : String) (rr : Bool)
    (hmark : st.lastNotificationAt = Option.some t)
    (hcool : now - t < RATE_LIMIT_COOLDOWN_MS) :
    ∀ (fetched : List Incident) (sendOk : Notification → Bool),
      runProcess env st fetched now iso sendOk rr
        = ⟨[], [], st, if rr then Option.some [] else Option.none⟩ := by
  intro fetched sendOk
  have hlim : isRateLimited now st = true := by
    simp [isRateLimited, hmark, hcool]
  exact runProcess_limited env st fetched now iso sendOk rr hlim

/-- C10: the `digest_notification` action value is never reported in any
run's results — an incident notified as part of a digest still carries the
action `new_incident_notification` in the manual-trigger results. -/
theorem c10_digest_action_never_reported
    (env : EnvConfig) (st : WorkerState) (fetched : List Incident) (now : Int)
    (iso : String) (sendOk : Notification → Bool) (rr : Bool) :
    (∀ r ∈ (runProcess env st fetched now iso sendOk rr).results,
        r.action ≠ Action.digest_notification)
    ∧ (∀ (L : List Incident) (inc : Incident),
        Notification.digest L ∈ (runProcess env st fetched now iso sendOk rr).notifications →
        inc ∈ L →
        (processOne (st.incidentStore inc.id) inc env.minImpactLevel).result
            ∈ (runProcess env st fetched now iso sendOk rr).results
          ∧ (processOne (st.incidentStore inc.id) inc env.minImpactLevel).result.action
              = Action.new_incident_notification) := by
  by_cases hrl : isRateLimited now st = true
  · rw [runProcess_limited env st fetched now iso sendOk rr hrl]
    exact ⟨fun r hr => absurd hr (List.not_mem_nil r),
      fun L inc hd => absurd hd (List.not_mem_nil _)⟩
  · rw [Bool.not_eq_true] at hrl
    constructor
    · rw [runProcess_results env st fetched now iso sendOk rr hrl, resultsOf]
      intro r hr
      obtain ⟨x, _, rfl⟩ := List.mem_map.mp hr
      exact processOne_action_ne_digest _
    · intro L inc hd hi
      rw [runProcess_notifications env st fetched now iso sendOk rr hrl,
        buildNotifications] at hd
      have hLNL : L = newOf st.incidentStore env.minImpactLevel (recentFilter fetched now) := by
        rcases List.mem_append.mp hd with h | h
        · rcases List.mem_append.mp h with h' | h'
          · rcases List.mem_append.mp h' with h'' | h''
            · exact digest_mem_newPartOf h''
            · obtain ⟨x, _, hx⟩ := List.mem_map.mp h''
              cases hx
          · obtain ⟨x, _, hx⟩ := List.mem_map.mp h'
            cases hx
        · obtain ⟨x, _, hx⟩ := List.mem_map.mp h
          cases hx
      rw [hLNL, newOf] at hi
      have hmr := (List.mem_filter.mp hi).1
      have hnew := (List.mem_filter.mp hi).2
      constructor
      · rw [runProcess_results env st fetched now iso sendOk rr hrl, resultsOf]
        exact List.mem_map_of_mem _ hmr
      · exact processOne_isNew_action _ hnew

/-- C4: when the number of new (unstored, unresolved, unfiltered) incidents
of a run reaches the digest threshold (3), exactly one digest notification
and zero individual new-incident notifications are queued; with one or two
new incidents, exactly the individual notifications are queued and no
digest; the digest body lists at most the first 10 grouped incidents and
appends a "...and N more" line exactly when more than 10 are grouped. -/
theorem c4_digest_threshold_and_truncation
    (env : EnvConfig) (st : WorkerState) (fetched : List Incident) (now : Int)
    (iso : String) (sendOk : Notification → Bool) (rr : Bool)
    (hrl : isRateLimited now st = false) :
    (DIGEST_THRESHOLD
        ≤ (newOf st.incidentStore env.minImpactLevel (recentFilter fetched now)).length →
      (runProcess env st fetched now iso sendOk rr).notifications.countP isDigestNotif = 1
      ∧ (runProcess env st fetched now iso sendOk rr).notifications.countP isNewIndivNotif = 0
      ∧ Notification.digest (newOf st.incidentStore env.minImpactLevel (recentFilter fetched now))
          ∈ (runProcess env st fetched now iso sendOk rr).notifications)
    ∧ (1 ≤ (newOf st.incidentStore env.minImpactLevel (recentFilter fetched now)).length →
       (newOf st.incidentStore env.minImpactLevel (recentFilter fetched now)).length
          < DIGEST_THRESHOLD →
      (runProcess env st fetched now iso sendOk rr).notifications.countP isDigestNotif = 0
      ∧ (runProcess env st fetched now iso sendOk rr).notifications.filter isNewIndivNotif
          = (newOf st.incidentStore env.minImpactLevel (recentFilter fetched now)).map
              Notification.newIncident)
    ∧ ((newOf st.incidentStore env.minImpactLevel (recentFilter fetched now)).length ≤ 10 →
      digestMoreText (newOf st.incidentStore env.minImpactLevel (recentFilter fetched now)) = ""
      ∧ (newOf st.incidentStore env.minImpactLevel (recentFilter fetched now)).take 10
          = newOf st.incidentStore env.minImpactLevel (recentFilter fetched now))
    ∧ (10 < (newOf st.incidentStore env.minImpactLevel (recentFilter fetched now)).length →
      ((newOf st.incidentStore env.minImpactLevel (recentFilter fetched now)).take 10).length = 10
      ∧ digestMoreText (newOf st.incidentStore env.minImpactLevel (recentFilter fetched now))
          = "<br>...and "
            ++ toString
              ((newOf st.incidentStore env.minImpactLevel (recentFilter fetched now)).length - 10)
            ++ " more") := by
  refine ⟨?_, ?_, ?_, ?_⟩
  · intro h3
    rw [runProcess_notifications env st fetched now iso sendOk rr hrl, buildNotifications,
      newPartOf_eq_digest h3]
    refine ⟨?_, ?_, ?_⟩
    · rw [List.countP_append, List.countP_append, List.countP_append,
        countP_map_mismatch _ Notification.resolution _ (fun i => rfl),
        countP_map_mismatch _ Notification.monitoring _ (fun i => rfl),
        countP_map_mismatch
          (updatesOf st.incidentStore env.minImpactLevel (recentFilter fetched now))
          (fun q => Notification.statusUpdate q.1 q.2) _ (fun q => rfl)]
      simp [List.countP_cons, isDigestNotif]
    · rw [List.countP_append, List.countP_append, List.countP_append,
        countP_map_mismatch _ Notification.resolution _ (fun i => rfl),
        countP_map_mismatch _ Notification.monitoring _ (fun i => rfl),
        countP_map_mismatch
          (updatesOf st.incidentStore env.minImpactLevel (recentFilter fetched now))
          (fun q => Notification.statusUpdate q.1 q.2) _ (fun q => rfl)]
      simp [List.countP_cons, isNewIndivNotif]
    · exact List.mem_append.mpr (Or.inl (List.mem_append.mpr (Or.inl
        (List.mem_append.mpr (Or.inl (List.mem_singleton.mpr rfl))))))
  · intro h1 h3
    rw [runProcess_notifications env st fetched now iso sendOk rr hrl, buildNotifications,
      newPartOf_eq_map h1 h3]
    constructor
    · rw [List.countP_append, List.countP_append, List.countP_append,
        countP_map_mismatch _ Notification.newIncident _ (fun i => rfl),
        countP_map_mismatch _ Notification.resolution _ (fun i => rfl),
        countP_map_mismatch _ Notification.monitoring _ (fun i => rfl),
        countP_map_mismatch
          (updatesOf st.incidentStore env.minImpactLevel (recentFilter fetched now))
          (fun q => Notification.statusUpdate q.1 q.2) _ (fun q => rfl)]
    · rw [List.filter_append, List.filter_append, List.filter_append]
      rw [List.filter_eq_self.mpr (fun a ha => by
        obtain ⟨x, _, rfl⟩ := List.mem_map.mp ha; rfl)]
      rw [show (List.filter isNewIndivNotif
          ((resolvedOf st.incidentStore env.minImpactLevel (recentFilter fetched now)).map
            Notification.resolution)) = [] from
        List.filter_eq_nil_iff.mpr (fun a ha => by
          obtain ⟨x, _, rfl⟩ := List.mem_map.mp ha; simp [isNewIndivNotif])]
      rw [show (List.filter isNewIndivNotif
          ((monitoringOf st.incidentStore env.minImpactLevel (recentFilter fetched now)).map
            Notification.monitoring)) = [] from
        List.filter_eq_nil_iff.mpr (fun a ha => by
          obtain ⟨x, _, rfl⟩ := List.mem_map.mp ha; simp [isNewIndivNotif])]
      rw [show (List.filter isNewIndivNotif
          ((updatesOf st.incidentStore env.minImpactLevel (recentFilter fetched now)).map
            (fun q => Notification.statusUpdate q.1 q.2))) = [] from
        List.filter_eq_nil_iff.mpr (fun a ha => by
          obtain ⟨x, _, rfl⟩ := List.mem_map.mp ha; simp [isNewIndivNotif])]
      simp
  · intro h10
    exact ⟨by rw [digestMoreText, if_neg (Nat.not_lt.mpr h10)],
      List.take_of_length_le h10⟩
  · intro h10
    refine ⟨?_, by rw [digestMoreText, if_pos h10]⟩
    rw [List.length_take]
    exact Nat.min_eq_left (Nat.le_of_lt h10)

/-- C8 (amended): when the first run is not itself rate-limit-suppressed,
running the pass again within the cooldown of the first, on the same fetched
list, queues zero notifications: either the first run had a successful
dispatch and its marker suppresses the second run entirely, or the state it
wrote classifies every incident as unchanged/no-action. -/
theorem c8_second_run_queues_nothing
    (env : EnvConfig) (st : WorkerState) (fetched : List Incident)
    (now1 now2 : Int) (iso1 iso2 : String)
    (sendOk1 sendOk2 : Notification → Bool) (rr1 rr2 : Bool)
    (hn : (fetched.map Incident.id).Nodup)
    (h12 : now1 ≤ now2)
    (hcool : now2 - now1 < RATE_LIMIT_COOLDOWN_MS)
    (hrl1 : isRateLimited now1 st = false) :
    (runProcess env (runProcess env st fetched now1 iso1 sendOk1 rr1).finalState
        fetched now2 iso2 sendOk2 rr2).notifications = [] := by
  have hmarker := runProcess_marker env st fetched now1 iso1 sendOk1 rr1 hrl1
  have hstore1 := runProcess_store env st fetched now1 iso1 sendOk1 rr1 hrl1
  by_cases hsucc : ((buildNotifications
      (newOf st.incidentStore env.minImpactLevel (recentFilter fetched now1))
      (resolvedOf st.incidentStore env.minImpactLevel (recentFilter fetched now1))
      (monitoringOf st.incidentStore env.minImpactLevel (recentFilter fetched now1))
      (updatesOf st.incidentStore env.minImpactLevel (recentFilter fetched now1))).filter
        sendOk1).length ≠ 0
  · have hm1 : (runProcess env st fetched now1 iso1 sendOk1 rr1).finalState.lastNotificationAt
        = Option.some now1 := by rw [hmarker, if_pos hsucc]
    have hlim : isRateLimited now2
        (runProcess env st fetched now1 iso1 sendOk1 rr1).finalState = true := by
      simp [isRateLimited, hm1, hcool]
    rw [runProcess_limited env _ fetched now2 iso2 sendOk2 rr2 hlim]
  · by_cases hrl2 : isRateLimited now2
        (runProcess env st fetched now1 iso1 sendOk1 rr1).finalState = true
    · rw [runProcess_limited env _ fetched now2 iso2 sendOk2 rr2 hrl2]
    · rw [Bool.not_eq_true] at hrl2
      rw [runProcess_notifications env _ fetched now2 iso2 sendOk2 rr2 hrl2]
      have hsub : ∀ x ∈ recentFilter fetched now2, x ∈ recentFilter fetched now1 := by
        intro x hx
        have hx' := List.mem_filter.mp hx
        have hage : now2 - x.startedAt < RECENT_INCIDENT_MS := of_decide_eq_true hx'.2
        exact mem_recentFilter fetched now1 x hx'.1
          (lt_of_le_of_lt (sub_le_sub_right h12 x.startedAt) hage)
      have hkey : ∀ x ∈ recentFilter fetched now2,
          (processOne ((runProcess env st fetched now1 iso1 sendOk1 rr1).finalState.incidentStore
              x.id) x env.minImpactLevel).isNew = false
          ∧ (processOne ((runProcess env st fetched now1 iso1 sendOk1 rr1).finalState.incidentStore
              x.id) x env.minImpactLevel).isResolved = false
          ∧ (processOne ((runProcess env st fetched now1 iso1 sendOk1 rr1).finalState.incidentStore
              x.id) x env.minImpactLevel).isMonitoring = false
          ∧ (processOne ((runProcess env st fetched now1 iso1 sendOk1 rr1).finalState.incidentStore
              x.id) x env.minImpactLevel).statusUpdateOld = Option.none := by
        intro x hx
        have hx1 := hsub x hx
        have hst : (runProcess env st fetched now1 iso1 sendOk1 rr1).finalState.incidentStore x.id
            = if (processOne (st.incidentStore x.id) x env.minImpactLevel).storeWrite
              then Option.some ⟨x.status, iso1⟩ else st.incidentStore x.id := by
          rw [hstore1]
          exact processLoop_store_mem st.incidentStore env.minImpactLevel iso1
            (recentFilter fetched now1) x (recentFilter_nodup fetched now1 hn) hx1
        rw [hst]
        exact processOne_stable (st.incidentStore x.id) x env.minImpactLevel iso1
      have hNL : newOf ((runProcess env st fetched now1 iso1 sendOk1 rr1).finalState).incidentStore
          env.minImpactLevel (recentFilter fetched now2) = [] :=
        List.filter_eq_nil_iff.mpr (fun x hx => by
          rw [(hkey x hx).1]; exact Bool.false_ne_true)
      have hRL : resolvedOf
          ((runProcess env st fetched now1 iso1 sendOk1 rr1).finalState).incidentStore
          env.minImpactLevel (recentFilter fetched now2) = [] :=
        List.filter_eq_nil_iff.mpr (fun x hx => by
          rw [(hkey x hx).2.1]; exact Bool.false_ne_true)
      have hML : monitoringOf
          ((runProcess env st fetched now1 iso1 sendOk1 rr1).finalState).incidentStore
          env.minImpactLevel (recentFilter fetched now2) = [] :=
        List.filter_eq_nil_iff.mpr (fun x hx => by
          rw [(hkey x hx).2.2.1]; exact Bool.false_ne_true)
      have hUL : updatesOf
          ((runProcess env st fetched now1 iso1 sendOk1 rr1).finalState).incidentStore
          env.minImpactLevel (recentFilter fetched now2) = [] :=
        List.filterMap_eq_nil_iff.mpr (fun x hx => by rw [(hkey x hx).2.2.2]; rfl)
      rw [hNL, hRL, hML, hUL]
      rfl

/-- C8 (counterexample): as stated, the claim fails when the first run is
itself rate-limit-suppressed.  With a marker at time 0, a first run at
50000 ms is suppressed (and so writes nothing), and a second run at
100000 ms — 50000 ms after the first, within the 1-minute cooldown of the
first run — escapes the marker's cooldown and queues a new-incident
notification for the same fetched list. -/
theorem c8_counterexample :
    ((100000 : Int) - 50000 < RATE_LIMIT_COOLDOWN_MS)
    ∧ (runProcess ⟨Option.none⟩
        (runProcess ⟨Option.none⟩
          ⟨fun _ => Option.none, Option.some 0, Option.none⟩
          [⟨"inc-1", "Incident One", "investigating", "minor", 0⟩]
          50000 "iso1" (fun _ => true) false).finalState
        [⟨"inc-1", "Incident One", "investigating", "minor", 0⟩]
        100000 "iso2" (fun _ => true) false).notifications
      = [Notification.newIncident ⟨"inc-1", "Incident One", "investigating", "minor", 0⟩] :=
  ⟨by decide, by rfl⟩

/-- C7 (amended): the dispatcher attempts the send at most 3 times, sleeps
`2^i` seconds after failed attempt `i` when a retry remains — so at most
two waits, of 1 then 2 time-units, ever occur; the final failure is
re-raised immediately, with no 4-unit wait — and a call failing twice then
succeeding on the third attempt is an overall success surfacing no
failure. -/
theorem c7_retry_bounded_backoff {T : Type} (attempts : Nat → Except String T) :
    (∀ v, attempts 0 = Except.ok v →
      withRetry attempts MAX_RETRIES = (Except.ok v, []))
    ∧ (∀ e0 v, attempts 0 = Except.error e0 → attempts 1 = Except.ok v →
      withRetry attempts MAX_RETRIES = (Except.ok v, [1000]))
    ∧ (∀ e0 e1 v, attempts 0 = Except.error e0 → attempts 1 = Except.error e1 →
      attempts 2 = Except.ok v →
      withRetry attempts MAX_RETRIES = (Except.ok v, [1000, 2000]))
    ∧ (∀ e0 e1 e2, attempts 0 = Except.error e0 → attempts 1 = Except.error e1 →
      attempts 2 = Except.error e2 →
      withRetry attempts MAX_RETRIES = (Except.error e2, [1000, 2000]))
    ∧ (∀ b : Nat → Except String T, (∀ i, i < MAX_RETRIES → attempts i = b i) →
      withRetry attempts MAX_RETRIES = withRetry b MAX_RETRIES) := by
  refine ⟨?_, ?_, ?_, ?_, ?_⟩
  · intro v h0
    simp [withRetry, withRetryGo, MAX_RETRIES, h0]
  · intro e0 v h0 h1
    simp [withRetry, withRetryGo, MAX_RETRIES, h0, h1]
  · intro e0 e1 v h0 h1 h2
    simp [withRetry, withRetryGo, MAX_RETRIES, h0, h1, h2]
  · intro e0 e1 e2 h0 h1 h2
    simp [withRetry, withRetryGo, MAX_RETRIES, h0, h1, h2]
  · intro b hb
    simp [withRetry, withRetryGo, MAX_RETRIES,
      hb 0 (by decide), hb 1 (by decide), hb 2 (by decide)]

/-- C7 (counterexample): the claimed wait schedule "1, 2, 4 time-units
between attempts" does not occur: even when every attempt fails — the run
with the most waits — only two waits are performed, of 1000 and 2000 ms,
and no 4000 ms wait ever happens (the third failure is re-raised without a
sleep). -/
theorem c7_counterexample :
    (withRetry (fun _ => (Except.error "boom" : Except String Nat)) MAX_RETRIES).2
      = [1000, 2000]
    ∧ ¬ ((4000 : Nat)
        ∈ (withRetry (fun _ => (Except.error "boom" : Except String Nat)) MAX_RETRIES).2) :=
  ⟨by rfl, by decide⟩

/-- C7 (witness). -/
theorem c7_retry_bounded_backoff_witness :
    withRetry (fun i => if i = 2 then Except.ok 42 else Except.error "e") MAX_RETRIES
      = (Except.ok 42, [1000, 2000]) :=
  (c7_retry_bounded_backoff (fun i => if i = 2 then Except.ok 42 else Except.error "e")).2.2.1
    "e" "e" 42 rfl rfl rfl

lemma char_ne_of_digit {c : Char} (h : c.isDigit = true) (d : Char)
    (hd : d.isDigit = false) : c ≠ d := by
  intro he
  rw [he, hd] at h
  cases h

lemma isJsonWs_of_digit {c : Char} (h : c.isDigit = true) : isJsonWs c = false := by
  have e1 : c ≠ ' ' := char_ne_of_digit h ' ' (by decide)
  have e2 : c ≠ '\t' := char_ne_of_digit h '\t' (by decide)
  have e3 : c ≠ '\n' := char_ne_of_digit h '\n' (by decide)
  have e4 : c ≠ '\r' := char_ne_of_digit h '\r' (by decide)
  simp [isJsonWs, e1, e2, e3, e4]

lemma skipWs_not_ws {c : Char} (cs : List Char) (h : isJsonWs c = false) :
    skipWs (c :: cs) = c :: cs := by
  simp [skipWs, h]

lemma takeDigits_cons_digit {c : Char} (cs : List Char) (h : c.isDigit = true) :
    takeDigits (c :: cs) = (c :: (takeDigits cs).1, (takeDigits cs).2) := by
  simp [takeDigits, h]

lemma takeDigits_cons_not_digit {c : Char} (cs : List Char) (h : c.isDigit = false) :
    takeDigits (c :: cs) = ([], c :: cs) := by
  simp [takeDigits, h]

/-- A JSON number starting at a digit stops no later than the first dash:
on input `DDDD-…` (four digits then a dash), the number parser succeeds but
leaves a nonempty, non-whitespace remainder. -/
lemma parseNumberChars_iso (c1 c2 c3 c4 : Char) (r : List Char)
    (h1 : c1.isDigit = true) (h2 : c2.isDigit = true) (h3 : c3.isDigit = true)
    (h4 : c4.isDigit = true) :
    ∃ numeral rest,
      parseNumberChars (c1 :: c2 :: c3 :: c4 :: '-' :: r) = Option.some (numeral, rest)
      ∧ rest ≠ [] ∧ skipWs rest = rest := by
  have hnm : c1 ≠ '-' := char_ne_of_digit h1 '-' (by decide)
  by_cases h0 : c1 = '0'
  · refine ⟨[c1], c2 :: c3 :: c4 :: '-' :: r, ?_, by simp,
      skipWs_not_ws _ (isJsonWs_of_digit h2)⟩
    simp [parseNumberChars, hnm, h1, h0, char_ne_of_digit h2 '.' (by decide),
      char_ne_of_digit h2 'e' (by decide), char_ne_of_digit h2 'E' (by decide)]
  · refine ⟨[c1, c2, c3, c4], '-' :: r, ?_, by simp,
      skipWs_not_ws _ (by decide)⟩
    simp [parseNumberChars, hnm, h1, h0,
      takeDigits_cons_digit _ h2, takeDigits_cons_digit _ h3, takeDigits_cons_digit _ h4,
      takeDigits_cons_not_digit _ (by decide : ('-' : Char).isDigit = false)]

/-- On input `DDDD-…`, `parseValue` parses a number and leaves the dash
onward unconsumed. -/
lemma parseValue_iso (fuel : Nat) (c1 c2 c3 c4 : Char) (r : List Char)
    (h1 : c1.isDigit = true) (h2 : c2.isDigit = true) (h3 : c3.isDigit = true)
    (h4 : c4.isDigit = true) :
    ∃ (v : Json) (rest : List Char),
      parseValue (fuel + 1) (c1 :: c2 :: c3 :: c4 :: '-' :: r) = Option.some (v, rest)
      ∧ rest ≠ [] ∧ skipWs rest = rest := by
  obtain ⟨numeral, rest, hpnc, hne, hskip⟩ := parseNumberChars_iso c1 c2 c3 c4 r h1 h2 h3 h4
  refine ⟨Json.jnum (String.mk numeral), rest, ?_, hne, hskip⟩
  have e1 : c1 ≠ '"' := char_ne_of_digit h1 '"' (by decide)
  have e2 : c1 ≠ Char.ofNat 123 := char_ne_of_digit h1 (Char.ofNat 123) (by decide)
  have e3 : c1 ≠ '[' := char_ne_of_digit h1 '[' (by decide)
  have e4 : c1 ≠ 't' := char_ne_of_digit h1 't' (by decide)
  have e5 : c1 ≠ 'f' := char_ne_of_digit h1 'f' (by decide)
  have e6 : c1 ≠ 'n' := char_ne_of_digit h1 'n' (by decide)
  simp [parseValue, skipWs_not_ws _ (isJsonWs_of_digit h1), e1, e2, e3, e4, e5, e6, hpnc]

/-- Every string of the legacy-timestamp shape `DDDD-…` (as produced by
`Date.toISOString`) is refused by `JSON.parse`: the leading digits parse as
a number and the dash onward is trailing garbage. -/
lemma jsonParse_legacy_iso (c1 c2 c3 c4 : Char) (r : List Char)
    (h1 : c1.isDigit = true) (h2 : c2.isDigit = true) (h3 : c3.isDigit = true)
    (h4 : c4.isDigit = true) :
    jsonParse (String.mk (c1 :: c2 :: c3 :: c4 :: '-' :: r)) = Option.none := by
  obtain ⟨v, rest, hpv, hne, hskip⟩ :=
    parseValue_iso (String.mk (c1 :: c2 :: c3 :: c4 :: '-' :: r)).length c1 c2 c3 c4 r h1 h2 h3 h4
  simp only [jsonParse,
    show (String.mk (c1 :: c2 :: c3 :: c4 :: '-' :: r)).toList
        = c1 :: c2 :: c3 :: c4 :: '-' :: r from rfl,
    hpv, hskip]
  rw [if_neg hne]

/-- C9: a stored value that is not parseable JSON is read back as
`{status: "identified", timestamp: value}`, the parse failure recovered
rather than surfaced; and every legacy plain timestamp — any string of the
`Date.toISOString` shape, four digits then a dash — is such a value, so it
is always read back under the legacy interpretation. -/
theorem c9_legacy_timestamp_fallback :
    (∀ d : String, d ≠ "" → jsonParse d = Option.none →
      getStoredIncidentRaw (Option.some d)
        = Option.some ⟨Option.some "identified", Option.some d⟩)
    ∧ (∀ c1 c2 c3 c4 : Char, ∀ r : List Char,
      c1.isDigit = true → c2.isDigit = true → c3.isDigit = true → c4.isDigit = true →
      getStoredIncidentRaw (Option.some (String.mk (c1 :: c2 :: c3 :: c4 :: '-' :: r)))
        = Option.some ⟨Option.some "identified",
            Option.some (String.mk (c1 :: c2 :: c3 :: c4 :: '-' :: r))⟩) := by
  have base : ∀ d : String, d ≠ "" → jsonParse d = Option.none →
      getStoredIncidentRaw (Option.some d)
        = Option.some ⟨Option.some "identified", Option.some d⟩ := by
    intro d hne hp
    simp [getStoredIncidentRaw, hne, hp]
  refine ⟨base, ?_⟩
  intro c1 c2 c3 c4 r h1 h2 h3 h4
  refine base _ ?_ (jsonParse_legacy_iso c1 c2 c3 c4 r h1 h2 h3 h4)
  intro he
  have := congrArg String.data he
  cases this

/-- C9 (witness): the plain string `2024-01-01T00:00:00Z` really is refused
by `JSON.parse` and read back under the legacy interpretation. -/
theorem c9_legacy_timestamp_fallback_witness :
    jsonParse "2024-01-01T00:00:00Z" = Option.none
    ∧ getStoredIncidentRaw (Option.some "2024-01-01T00:00:00Z")
        = Option.some ⟨Option.some "identified", Option.some "2024-01-01T00:00:00Z"⟩ :=
  ⟨by rfl, c9_legacy_timestamp_fallback.1 "2024-01-01T00:00:00Z" (by decide) (by rfl)⟩

/-- C1 (witness): a fresh unresolved incident gets exactly one notification
and a store entry at its current status. -/
theorem c1_new_incident_notify_and_store_witness :
    (runProcess ⟨Option.none⟩ ⟨fun _ => Option.none, Option.none, Option.none⟩
        [⟨"i1", "Incident One", "investigating", "minor", 0⟩] 1000 "iso"
        (fun _ => true) true).notifications.countP (isNewOrDigestFor "i1") = 1
    ∧ (runProcess ⟨Option.none⟩ ⟨fun _ => Option.none, Option.none, Option.none⟩
        [⟨"i1", "Incident One", "investigating", "minor", 0⟩] 1000 "iso"
        (fun _ => true) true).notifications.countP (notifiesIncident "i1") = 1
    ∧ (runProcess ⟨Option.none⟩ ⟨fun _ => Option.none, Option.none, Option.none⟩
        [⟨"i1", "Incident One", "investigating", "minor", 0⟩] 1000 "iso"
        (fun _ => true) true).finalState.incidentStore "i1"
      = Option.some ⟨"investigating", "iso"⟩ :=
  (c1_new_incident_notify_and_store ⟨Option.none⟩
      ⟨fun _ => Option.none, Option.none, Option.none⟩
      [⟨"i1", "Incident One", "investigating", "minor", 0⟩] 1000 "iso" (fun _ => true) true
      ⟨"i1", "Incident One", "investigating", "minor", 0⟩
      (by rfl) (by decide) (by decide) (by decide) (by rfl) (by rfl)).1 (by decide)

/-- C2 (witness): a stored "monitoring" incident observed as "resolved"
yields one resolution notification, nothing else, and a store write. -/
theorem c2_resolution_takes_precedence_witness :
    (runProcess ⟨Option.none⟩
        ⟨fun k => if k = "i1" then Option.some ⟨"monitoring", "t0"⟩ else Option.none,
          Option.none, Option.none⟩
        [⟨"i1", "Incident One", "resolved", "minor", 0⟩] 1000 "iso"
        (fun _ => true) true).notifications.countP (isResolutionFor "i1") = 1
    ∧ (runProcess ⟨Option.none⟩
        ⟨fun k => if k = "i1" then Option.some ⟨"monitoring", "t0"⟩ else Option.none,
          Option.none, Option.none⟩
        [⟨"i1", "Incident One", "resolved", "minor", 0⟩] 1000 "iso"
        (fun _ => true) true).notifications.countP (isStatusUpdateFor "i1") = 0
    ∧ (runProcess ⟨Option.none⟩
        ⟨fun k => if k = "i1" then Option.some ⟨"monitoring", "t0"⟩ else Option.none,
          Option.none, Option.none⟩
        [⟨"i1", "Incident One", "resolved", "minor", 0⟩] 1000 "iso"
        (fun _ => true) true).notifications.countP (isMonitoringFor "i1") = 0
    ∧ (runProcess ⟨Option.none⟩
        ⟨fun k => if k = "i1" then Option.some ⟨"monitoring", "t0"⟩ else Option.none,
          Option.none, Option.none⟩
        [⟨"i1", "Incident One", "resolved", "minor", 0⟩] 1000 "iso"
        (fun _ => true) true).notifications.countP (notifiesIncident "i1") = 1
    ∧ (runProcess ⟨Option.none⟩
        ⟨fun k => if k = "i1" then Option.some ⟨"monitoring", "t0"⟩ else Option.none,
          Option.none, Option.none⟩
        [⟨"i1", "Incident One", "resolved", "minor", 0⟩] 1000 "iso"
        (fun _ => true) true).finalState.incidentStore "i1"
      = Option.some ⟨"resolved", "iso"⟩ :=
  c2_resolution_takes_precedence ⟨Option.none⟩
    ⟨fun k => if k = "i1" then Option.some ⟨"monitoring", "t0"⟩ else Option.none,
      Option.none, Option.none⟩
    [⟨"i1", "Incident One", "resolved", "minor", 0⟩] 1000 "iso" (fun _ => true) true
    ⟨"i1", "Incident One", "resolved", "minor", 0⟩ ⟨"monitoring", "t0"⟩
    (by rfl) (by decide) (by decide) (by decide) (by rfl) (by rfl) (by decide) (by rfl)

/-- C3 (witness): with `MIN_IMPACT_LEVEL = "major"`, a "minor" incident is
reported `filtered`, with no store write and no notification. -/
theorem c3_impact_filter_is_hard_gate_witness :
    (processOne Option.none ⟨"i1", "Incident One", "investigating", "minor", 0⟩
        (Option.some "major")).result
      ∈ (runProcess ⟨Option.some "major"⟩ ⟨fun _ => Option.none, Option.none, Option.none⟩
          [⟨"i1", "Incident One", "investigating", "minor", 0⟩] 1000 "iso"
          (fun _ => true) true).results
    ∧ (processOne Option.none ⟨"i1", "Incident One", "investigating", "minor", 0⟩
        (Option.some "major")).result.action = Action.filtered
    ∧ (runProcess ⟨Option.some "major"⟩ ⟨fun _ => Option.none, Option.none, Option.none⟩
        [⟨"i1", "Incident One", "investigating", "minor", 0⟩] 1000 "iso"
        (fun _ => true) true).finalState.incidentStore "i1" = Option.none
    ∧ (runProcess ⟨Option.some "major"⟩ ⟨fun _ => Option.none, Option.none, Option.none⟩
        [⟨"i1", "Incident One", "investigating", "minor", 0⟩] 1000 "iso"
        (fun _ => true) true).notifications.countP (notifiesIncident "i1") = 0 :=
  (c3_impact_filter_is_hard_gate ⟨Option.some "major"⟩
      ⟨fun _ => Option.none, Option.none, Option.none⟩
      [⟨"i1", "Incident One", "investigating", "minor", 0⟩] 1000 "iso" (fun _ => true) true
      ⟨"i1", "Incident One", "investigating", "minor", 0⟩ "major"
      (by rfl) (by decide) (by decide) (by decide) (by rfl) (by decide)).1 (by decide)

/-- C4 (witness): three new incidents produce one digest, no individual
cards, and the digest groups exactly those three. -/
theorem c4_digest_threshold_and_truncation_witness :
    (runProcess ⟨Option.none⟩ ⟨fun _ => Option.none, Option.none, Option.none⟩
        [⟨"i1", "One", "investigating", "minor", 0⟩,
         ⟨"i2", "Two", "investigating", "major", 0⟩,
         ⟨"i3", "Three", "investigating", "critical", 0⟩] 1000 "iso"
        (fun _ => true) true).notifications.countP isDigestNotif = 1
    ∧ (runProcess ⟨Option.none⟩ ⟨fun _ => Option.none, Option.none, Option.none⟩
        [⟨"i1", "One", "investigating", "minor", 0⟩,
         ⟨"i2", "Two", "investigating", "major", 0⟩,
         ⟨"i3", "Three", "investigating", "critical", 0⟩] 1000 "iso"
        (fun _ => true) true).notifications.countP isNewIndivNotif = 0
    ∧ Notification.digest
        (newOf
          (⟨fun _ => Option.none, Option.none, Option.none⟩ : WorkerState).incidentStore
          (⟨Option.none⟩ : EnvConfig).minImpactLevel
          (recentFilter
            [⟨"i1", "One", "investigating", "minor", 0⟩,
             ⟨"i2", "Two", "investigating", "major", 0⟩,
             ⟨"i3", "Three", "investigating", "critical", 0⟩] 1000))
        ∈ (runProcess ⟨Option.none⟩ ⟨fun _ => Option.none, Option.none, Option.none⟩
            [⟨"i1", "One", "investigating", "minor", 0⟩,
             ⟨"i2", "Two", "investigating", "major", 0⟩,
             ⟨"i3", "Three", "investigating", "critical", 0⟩] 1000 "iso"
            (fun _ => true) true).notifications :=
  (c4_digest_threshold_and_truncation ⟨Option.none⟩
      ⟨fun _ => Option.none, Option.none, Option.none⟩
      [⟨"i1", "One", "investigating", "minor", 0⟩,
       ⟨"i2", "Two", "investigating", "major", 0⟩,
       ⟨"i3", "Three", "investigating", "critical", 0⟩] 1000 "iso" (fun _ => true) true
      (by rfl)).1 (by decide)

/-- C5 (witness): the claim's particular case — stored "monitoring",
current "identified" (a priority regression) — updates the store to
"identified" and sends nothing. -/
theorem c5_silent_write_on_non_progression_witness :
    (runProcess ⟨Option.none⟩
        ⟨fun k => if k = "i1" then Option.some ⟨"monitoring", "t0"⟩ else Option.none,
          Option.none, Option.none⟩
        [⟨"i1", "Incident One", "identified", "minor", 0⟩] 1000 "iso"
        (fun _ => true) true).finalState.incidentStore "i1"
      = Option.some ⟨"identified", "iso"⟩
    ∧ (runProcess ⟨Option.none⟩
        ⟨fun k => if k = "i1" then Option.some ⟨"monitoring", "t0"⟩ else Option.none,
          Option.none, Option.none⟩
        [⟨"i1", "Incident One", "identified", "minor", 0⟩] 1000 "iso"
        (fun _ => true) true).notifications.countP (isStatusUpdateFor "i1") = 0
    ∧ (runProcess ⟨Option.none⟩
        ⟨fun k => if k = "i1" then Option.some ⟨"monitoring", "t0"⟩ else Option.none,
          Option.none, Option.none⟩
        [⟨"i1", "Incident One", "identified", "minor", 0⟩] 1000 "iso"
        (fun _ => true) true).notifications.countP (notifiesIncident "i1") = 0 :=
  c5_silent_write_on_non_progression ⟨Option.none⟩
    ⟨fun k => if k = "i1" then Option.some ⟨"monitoring", "t0"⟩ else Option.none,
      Option.none, Option.none⟩
    [⟨"i1", "Incident One", "identified", "minor", 0⟩] 1000 "iso" (fun _ => true) true
    ⟨"i1", "Incident One", "identified", "minor", 0⟩ ⟨"monitoring", "t0"⟩
    (by rfl) (by decide) (by decide) (by decide) (by rfl) (by rfl) (by decide)
    (by decide) (by decide)

/-- C6 (witness): a pass 30 seconds after a marker returns the state
untouched and reports the empty result list. -/
theorem c6_rate_limited_pass_is_noop_witness :
    runProcess ⟨Option.none⟩
        ⟨fun _ => Option.none, Option.some 0, Option.none⟩
        [⟨"i1", "Incident One", "investigating", "minor", 0⟩] 30000 "iso"
        (fun _ => true) true
      = ⟨[], [], ⟨fun _ => Option.none, Option.some 0, Option.none⟩, Option.some []⟩ :=
  c6_rate_limited_pass_is_noop ⟨Option.none⟩
    ⟨fun _ => Option.none, Option.some 0, Option.none⟩ 0 30000 "iso" true
    (by rfl) (by decide)
    [⟨"i1", "Incident One", "investigating", "minor", 0⟩] (fun _ => true)

/-- C8 (witness): two immediately consecutive runs, the first not
suppressed, queue nothing on the second run. -/
theorem c8_second_run_queues_nothing_witness :
    (runProcess ⟨Option.none⟩
        (runProcess ⟨Option.none⟩ ⟨fun _ => Option.none, Option.none, Option.none⟩
          [⟨"i1", "Incident One", "investigating", "minor", 0⟩] 1000 "iso1"
          (fun _ => true) false).finalState
        [⟨"i1", "Incident One", "investigating", "minor", 0⟩] 2000 "iso2"
        (fun _ => true) false).notifications = [] :=
  c8_second_run_queues_nothing ⟨Option.none⟩
    ⟨fun _ => Option.none, Option.none, Option.none⟩
    [⟨"i1", "Incident One", "investigating", "minor", 0⟩] 1000 2000 "iso1" "iso2"
    (fun _ => true) (fun _ => true) false false
    (by decide) (by decide) (by decide) (by rfl)

/-- C10 (witness): an incident notified through a digest still carries the
`new_incident_notification` action in the results. -/
theorem c10_digest_action_never_reported_witness :
    (processOne Option.none ⟨"i1", "One", "investigating", "minor", 0⟩ Option.none).result
      ∈ (runProcess ⟨Option.none⟩ ⟨fun _ => Option.none, Option.none, Option.none⟩
          [⟨"i1", "One", "investigating", "minor", 0⟩,
           ⟨"i2", "Two", "investigating", "major", 0⟩,
           ⟨"i3", "Three", "investigating", "critical", 0⟩] 1000 "iso"
          (fun _ => true) true).results
    ∧ (processOne Option.none ⟨"i1", "One", "investigating", "minor", 0⟩
        Option.none).result.action = Action.new_incident_notification :=
  (c10_digest_action_never_reported ⟨Option.none⟩
      ⟨fun _ => Option.none, Option.none, Option.none⟩
      [⟨"i1", "One", "investigating", "minor", 0⟩,
       ⟨"i2", "Two", "investigating", "major", 0⟩,
       ⟨"i3", "Three", "investigating", "critical", 0⟩] 1000 "iso" (fun _ => true) true).2
    [⟨"i1", "One", "investigating", "minor", 0⟩,
     ⟨"i2", "Two", "investigating", "major", 0⟩,
     ⟨"i3", "Three", "investigating", "critical", 0⟩]
    ⟨"i1", "One", "investigating", "minor", 0⟩
    (by decide) (by decide)

end CfIncidents
